import Mathlib

/-!
Shallow embedding of the LearnVaultX Exam Arena adaptive engine
(`routes/arena.py`, `modules/leaderboard_engine.py`) and proofs about it.
Machine arithmetic is modelled over `ℚ`; Python semantics (truthiness of
`x or d`, `round` with round-half-to-even, `int()` truncation) are given
explicit definitions below.
-/

namespace LearnVault

/-- Python round-half-to-even (banker's rounding) on a rational, to an integer.
Models the builtin `round(x)` used via `round(x, ndigits)`. -/
def pyRound (x : ℚ) : ℤ :=
  if x - ⌊x⌋ < 1/2 then ⌊x⌋
  else if 1/2 < x - ⌊x⌋ then ⌊x⌋ + 1
  else if ⌊x⌋ % 2 = 0 then ⌊x⌋ else ⌊x⌋ + 1

/-- Python `round(x, 1)` as a rational. -/
def round1 (x : ℚ) : ℚ := (pyRound (10 * x) : ℚ) / 10

/-- Python `round(x, 2)` as a rational. -/
def round2 (x : ℚ) : ℚ := (pyRound (100 * x) : ℚ) / 100

/-- Python `int(x)` truncation toward zero on a rational. -/
def pyInt (x : ℚ) : ℤ := if 0 ≤ x then ⌊x⌋ else -⌊-x⌋

/-- Python `v or d` for a nullable numeric column value `v`:
`None` and `0` are falsy and yield the default. -/
def pyOrQ (v : Option ℚ) (d : ℚ) : ℚ :=
  match v with
  | none => d
  | some x => if x = 0 then d else x

/-- Python `v or d` for a nullable string column value `v`:
`None` and the empty string are falsy and yield the default. -/
def pyOrStr (v : Option String) (d : Option String) : Option String :=
  match v with
  | none => d
  | some x => if x = "" then d else some x

/-!
Rank engine (`_calculate_rank`, `_get_level` in `routes/arena.py`).
-/

/-- Tier computation from `_calculate_rank(xp, accuracy, streak)`. -/
def calculateRank (xp accuracy streak : ℚ) : String :=
  let score := xp * 0.5 + accuracy * 3 + streak * 10
  if score ≥ 800 then "Diamond"
  else if score ≥ 500 then "Platinum"
  else if score ≥ 300 then "Gold"
  else if score ≥ 150 then "Silver"
  else "Bronze"

/-- Reference rank function written from the specification text: score =
xp×0.5 + accuracy×3 + streak×10; thresholds ≥800 Diamond, ≥500 Platinum,
≥300 Gold, ≥150 Silver, else Bronze. Used to compare against the
source-derived `calculateRank`. -/
def calculateRankSpec (xp accuracy streak : ℚ) : String :=
  let score := xp * 0.5 + accuracy * 3 + streak * 10
  if score ≥ 800 then "Diamond"
  else if score ≥ 500 then "Platinum"
  else if score ≥ 300 then "Gold"
  else if score ≥ 150 then "Silver"
  else "Bronze"

/-- Numeric height of a rank tier, Bronze = 0 up to Diamond = 4, used to
state monotonicity of `calculateRank`. -/
def rankLevel (r : String) : ℕ :=
  if r = "Diamond" then 4
  else if r = "Platinum" then 3
  else if r = "Gold" then 2
  else if r = "Silver" then 1
  else 0

/-- XP ladder `LEVEL_THRESHOLDS` from `routes/arena.py`. -/
def levelThresholds : List ℚ :=
  [0, 200, 500, 1000, 2000, 3500, 5500, 8000, 11000, 15000, 20000]

/-- Helper loop of `_get_level`: scan thresholds with a running index. -/
def getLevelAux (xp : ℚ) (i : ℤ) : List ℚ → ℤ
  | [] => 11 + pyInt ((xp - 20000) / 5000)
  | t :: ts => if xp < t then i else getLevelAux xp (i + 1) ts

/-- Level from XP, `_get_level` in `routes/arena.py`. -/
def getLevel (xp : ℚ) : ℤ := getLevelAux xp 0 levelThresholds

/-!
Adaptive difficulty selector (`_pick_adaptive_difficulty` in
`routes/arena.py`). It receives the result of the SQL query: up to 3 most
recent completed attempts, newest first.
-/

/-- Row of the `arena_attempts` table (the columns the adaptive engine
touches). Nullable columns are `Option`-typed. -/
structure Attempt where
  id : ℕ
  studentId : ℕ
  exam : String
  subject : String
  attemptType : String
  status : String
  score : ℚ
  totalQuestions : ℚ
  accuracyPercent : Option ℚ
  avgTimePerQuestion : Option ℚ
  difficultyStart : Option String
  difficultyEnd : Option String
  xpEarned : ℚ
  timeTakenTotal : ℚ
  createdAt : ℚ
  deriving DecidableEq

/-- Count of consecutive failures (accuracy_percent < 40, NULL read as 0)
from the most recent attempt backward, from `_pick_adaptive_difficulty`. -/
def consecutiveFails : List Attempt → ℕ
  | [] => 0
  | r :: rest => if pyOrQ r.accuracyPercent 0 < 40 then 1 + consecutiveFails rest else 0

/-- Difficulty choice from the trend of the last ≤3 completed attempts,
`_pick_adaptive_difficulty` in `routes/arena.py` (newest attempt first). -/
def pickAdaptiveDifficulty (recent : List Attempt) : String :=
  match recent with
  | [] => "Medium"
  | r0 :: _ =>
    let weights := (([0.5, 0.3, 0.2] : List ℚ).take recent.length)
    let weightSum := weights.sum
    let avgAcc := (List.zipWith (fun r w => pyOrQ r.accuracyPercent 0 * w) recent weights).sum / weightSum
    let avgSpeed := (List.zipWith (fun r w => pyOrQ r.avgTimePerQuestion 60 * w) recent weights).sum / weightSum
    if consecutiveFails recent ≥ 2 then "Easy"
    else if avgAcc ≥ 85 ∧ avgSpeed < 40 then "Hard"
    else if avgAcc ≥ 70 ∧ avgSpeed < 50 then
      (if r0.difficultyEnd = some "Medium" then "Hard" else "Medium")
    else if avgAcc ≥ 50 ∧ avgSpeed < 70 then "Medium"
    else if avgAcc < 40 ∨ avgSpeed > 90 then "Easy"
    else "Medium"

/-!
Readiness calculator (`_compute_readiness` in `routes/arena.py`). The SQL
query hands it the ≤10 most recent completed attempts, newest first; the
float `** 0.5` square root is abstracted as an explicit parameter `sqrtQ`.
-/

/-- Per-attempt accuracy as used by the readiness loop:
`score / total_questions * 100` when `total_questions > 0`, else 0. -/
def accValue (a : Attempt) : ℚ :=
  if a.totalQuestions > 0 then a.score / a.totalQuestions * 100 else 0

/-- Exponential-decay weight `1.0 / (1 + i * 0.3)` for the attempt at
position `i` (0 = newest). -/
def accWeight (i : ℕ) : ℚ := 1 / (1 + (i : ℚ) * 0.3)

/-- Accumulates `(weighted_acc, weight_sum)` over the attempt list starting
at position `i`, mirroring the `for i, a in enumerate(attempts)` loop. -/
def accWeighted (i : ℕ) : List Attempt → ℚ × ℚ
  | [] => (0, 0)
  | a :: rest =>
    let tl := accWeighted (i + 1) rest
    (accValue a * accWeight i + tl.1, accWeight i + tl.2)

/-- Lookup in `diff_map = {Easy:30, Medium:60, Hard:90, Extreme:100}` with
default 50. -/
def diffMapGet (s : String) : ℚ :=
  if s = "Easy" then 30
  else if s = "Medium" then 60
  else if s = "Hard" then 90
  else if s = "Extreme" then 100
  else 50

/-- Difficulty score of one attempt:
`diff_map.get(a.get('difficulty_end') or a.get('difficulty_start', 'Medium'), 50)`.
A NULL key falls through to the default 50. -/
def diffScore (a : Attempt) : ℚ :=
  match pyOrStr a.difficultyEnd a.difficultyStart with
  | some s => diffMapGet s
  | none => 50

/-- Speed sample of one attempt:
`a['avg_time_per_question'] and a['avg_time_per_question'] > 0`. -/
def speedSample (a : Attempt) : Option ℚ :=
  match a.avgTimePerQuestion with
  | some t => if t ≠ 0 ∧ t > 0 then some t else none
  | none => none

/-- Speed samples `avg_times` collected over the attempt list. -/
def avgTimesOf (attempts : List Attempt) : List ℚ :=
  attempts.filterMap speedSample

/-- Accuracy component (50%) of `_compute_readiness`. -/
def accuracyComponent (attempts : List Attempt) : ℚ :=
  let wa := accWeighted 0 attempts
  (if wa.2 > 0 then wa.1 / wa.2 else 0) * 0.50

/-- Difficulty component (25%) of `_compute_readiness`. -/
def difficultyComponent (attempts : List Attempt) : ℚ :=
  let diffScores := attempts.map diffScore
  if diffScores ≠ [] then (diffScores.sum / (diffScores.length : ℚ)) * 0.25 else 50 * 0.25

/-- Speed consistency component (15%) of `_compute_readiness`. -/
def speedComponent (sqrtQ : ℚ → ℚ) (attempts : List Attempt) : ℚ :=
  let avgTimes := avgTimesOf attempts
  if avgTimes ≠ [] then
    let avgSpeed := avgTimes.sum / (avgTimes.length : ℚ)
    let speedScore := max 0 (min 100 ((90 - avgSpeed) / 90 * 100))
    let speedScore2 :=
      if avgTimes.length > 1 then
        let variance := (avgTimes.map (fun t => (t - avgSpeed) ^ 2)).sum / (avgTimes.length : ℚ)
        let consistencyBonus := max 0 (min 20 (20 - sqrtQ variance))
        min 100 (speedScore + consistencyBonus)
      else speedScore
    speedScore2 * 0.15
  else 50 * 0.15

/-- Attempt-penalty component (10%) of `_compute_readiness`. -/
def attemptPenaltyComponent (attempts : List Attempt) : ℚ :=
  let failedAttempts := (attempts.filter (fun a => pyOrQ a.accuracyPercent 0 < 40)).length
  let failureRatio :=
    if attempts.length > 0 then (failedAttempts : ℚ) / (attempts.length : ℚ) else 0
  max 0 ((1 - failureRatio) * 100) * 0.10

/-- Unclamped readiness: sum of the accuracy (50%), difficulty (25%),
speed (15%) and attempt-penalty (10%) components of `_compute_readiness`. -/
def readinessRaw (sqrtQ : ℚ → ℚ) (attempts : List Attempt) : ℚ :=
  accuracyComponent attempts + difficultyComponent attempts +
    speedComponent sqrtQ attempts + attemptPenaltyComponent attempts

/-- Readiness score, `_compute_readiness` in `routes/arena.py`: 0 on an
empty history, otherwise the component sum clamped to [0,100] and rounded
to 1 decimal. -/
def computeReadiness (sqrtQ : ℚ → ℚ) (attempts : List Attempt) : ℚ :=
  if attempts = [] then 0
  else round1 (min 100 (max 0 (readinessRaw sqrtQ attempts)))

/-- Hypothesis relation of claim C6: two attempt rows identical in every
field except that the accuracy of the first dominates the accuracy of the
second, both as `score/total_questions` and as `accuracy_percent`. -/
structure AccGE (a b : Attempt) : Prop where
  id_eq : a.id = b.id
  student_eq : a.studentId = b.studentId
  exam_eq : a.exam = b.exam
  subject_eq : a.subject = b.subject
  type_eq : a.attemptType = b.attemptType
  status_eq : a.status = b.status
  total_eq : a.totalQuestions = b.totalQuestions
  avg_time_eq : a.avgTimePerQuestion = b.avgTimePerQuestion
  diff_start_eq : a.difficultyStart = b.difficultyStart
  diff_end_eq : a.difficultyEnd = b.difficultyEnd
  xp_eq : a.xpEarned = b.xpEarned
  time_eq : a.timeTakenTotal = b.timeTakenTotal
  created_eq : a.createdAt = b.createdAt
  acc_ge : accValue b ≤ accValue a
  acc_percent_ge : pyOrQ b.accuracyPercent 0 ≤ pyOrQ a.accuracyPercent 0

/-!
Leaderboard engine (`modules/leaderboard_engine.py`). `recalculate_class`
reads for every enrolled student one SQL aggregate row (modelled by
`StatsRow`), builds entries, sorts them descending by composite (Python
`list.sort` is stable), and upserts rows keyed by (student_id, class_id).
-/

/-- Per-student aggregate of the `quiz_submissions` query in
`recalculate_class` (the SQL `COALESCE`s already default to 0). -/
structure StatsRow where
  quizzesDone : ℕ
  totalCorrect : ℚ
  totalQuestions : ℚ
  avgScore : ℚ
  deriving DecidableEq

/-- In-memory entry built per student by `recalculate_class`. -/
structure LbEntry where
  studentId : ℕ
  avgScore : ℚ
  quizzesCompleted : ℕ
  totalCorrect : ℚ
  totalQuestions : ℚ
  efficiency : ℚ
  composite : ℚ
  deriving DecidableEq

/-- Row of the `leaderboard_scores` table. -/
structure LbRow where
  studentId : ℕ
  classId : ℕ
  avgScore : ℚ
  quizzesCompleted : ℕ
  totalCorrect : ℚ
  totalQuestions : ℚ
  efficiencyScore : ℚ
  compositeScore : ℚ
  rankPosition : ℕ
  deriving DecidableEq

/-- Entry construction of `recalculate_class` for one student:
composite = round(0.60×avg_score + 0.25×completion_ratio + 0.15×efficiency, 2). -/
def mkEntry (totalQuizzes : ℚ) (stats : ℕ → StatsRow) (sid : ℕ) : LbEntry :=
  let st := stats sid
  let avgScore := if st.avgScore ≠ 0 then round1 st.avgScore else 0
  let completionRat := min 100 ((st.quizzesDone : ℚ) / totalQuizzes * 100)
  let efficiency :=
    if st.totalQuestions > 0 then st.totalCorrect / st.totalQuestions * 100 else 0
  let composite := round2 (0.60 * avgScore + 0.25 * completionRat + 0.15 * efficiency)
  ⟨sid, avgScore, st.quizzesDone, st.totalCorrect, st.totalQuestions, round1 efficiency, composite⟩

/-- Stable descending insertion by composite: an element moves ahead only of
strictly smaller composites, so pre-sort order breaks ties (the behaviour of
Python `entries.sort(key=composite, reverse=True)`). -/
def insertDescLb (e : LbEntry) : List LbEntry → List LbEntry
  | [] => [e]
  | f :: fs => if e.composite ≥ f.composite then e :: f :: fs else f :: insertDescLb e fs

/-- Stable descending sort by composite. -/
def sortDescLb : List LbEntry → List LbEntry
  | [] => []
  | e :: es => insertDescLb e (sortDescLb es)

/-- Stored row produced for one ranked entry. -/
def mkRowOf (classId : ℕ) (e : LbEntry) (i : ℕ) : LbRow :=
  ⟨e.studentId, classId, e.avgScore, e.quizzesCompleted, e.totalCorrect,
    e.totalQuestions, e.efficiency, e.composite, i⟩

/-- Assignment of 1-based rank positions, `enumerate(entries, 1)`. -/
def rankRows (classId : ℕ) (i : ℕ) : List LbEntry → List LbRow
  | [] => []
  | e :: es => mkRowOf classId e i :: rankRows classId (i + 1) es

/-- Upsert with `ON CONFLICT(student_id, class_id) DO UPDATE`: the table has
a unique (student_id, class_id) key, so at most one row can conflict; it is
replaced in place, otherwise the row is inserted. -/
def upsertLb (board : List LbRow) (r : LbRow) : List LbRow :=
  match board with
  | [] => [r]
  | x :: xs =>
    if x.studentId = r.studentId ∧ x.classId = r.classId then r :: xs
    else x :: upsertLb xs r

/-- Index of a student id in a list of student ids (first occurrence). -/
def idxOfSid (sid : ℕ) : List ℕ → ℕ
  | [] => 0
  | s :: rest => if s = sid then 0 else idxOfSid sid rest + 1

/-- Class leaderboard recomputation, `LeaderboardEngine.recalculate_class`.
`totalQuizzesCnt` is the quiz count of the class (`or 1` coalesces 0). -/
def recalculateClass (classId : ℕ) (enrolled : List ℕ) (totalQuizzesCnt : ℕ)
    (stats : ℕ → StatsRow) (board : List LbRow) : List LbRow :=
  if enrolled = [] then board
  else
    let totalQuizzes : ℚ := if totalQuizzesCnt = 0 then 1 else (totalQuizzesCnt : ℚ)
    let entries := enrolled.map (mkEntry totalQuizzes stats)
    (rankRows classId 1 (sortDescLb entries)).foldl upsertLb board

/-- Read a stored leaderboard row by its (student_id, class_id) key. -/
def lookupBoard (board : List LbRow) (sid classId : ℕ) : Option LbRow :=
  board.find? (fun x => x.studentId = sid ∧ x.classId = classId)

/-- Email masking, `LeaderboardEngine._mask_email`, over the character
list of the address. -/
def maskEmailChars (cs : List Char) : List Char :=
  if cs = [] ∨ '@' ∉ cs then "***@***".data
  else
    let lcl := cs.takeWhile (· ≠ '@')
    let domain := (cs.dropWhile (· ≠ '@')).tail
    let masked := if lcl.length ≤ 1 then ['*'] else lcl.take 1 ++ "***".data
    masked ++ '@' :: domain

/-- Email masking on strings: `j***@gmail.com` style. -/
def maskEmail (s : String) : String := String.mk (maskEmailChars s.data)

/-!
Submission pipeline (`submit_attempt` in `routes/arena.py`) as a state
machine over the relational store. The SQL `ORDER BY RANDOM()` of the
practice-question query is abstracted as a parameter `rand`; wall-clock time
as a parameter `now`; the attempts list is kept newest-first (the order the
`ORDER BY created_at DESC` queries return). The pipeline also emits a trace
of the analytics steps it executes, in execution order.
-/

/-- Row of the `arena_question_bank` table. -/
structure Question where
  id : ℕ
  exam : String
  subject : String
  topicTag : String
  difficulty : String
  questionText : String
  optionA : String
  optionB : String
  optionC : String
  optionD : String
  correctOption : String
  explanation : String
  estimatedTimeSeconds : ℚ
  deriving DecidableEq

/-- Row of `arena_attempt_answers`: the snapshot columns are nullable
because the unknown-question insert omits them. -/
structure AnswerRow where
  attemptId : ℕ
  questionId : Option ℕ
  selectedOption : Option String
  isCorrect : Bool
  questionText : Option String
  optionA : Option String
  optionB : Option String
  optionC : Option String
  optionD : Option String
  correctOption : Option String
  explanation : Option String
  deriving DecidableEq

/-- Row of `arena_rank_status`. -/
structure RankRow where
  studentId : ℕ
  rankName : String
  xpTotal : ℚ
  streakDays : ℚ
  readinessScore : ℚ
  deriving DecidableEq

/-- Row of `arena_topic_mastery`. -/
structure MasteryRow where
  studentId : ℕ
  exam : String
  subject : String
  topicTag : String
  masteryScore : ℚ
  weakFlag : Bool
  deriving DecidableEq

/-- Row of `arena_xp_log`. -/
structure XpRow where
  studentId : ℕ
  amount : ℚ
  source : String
  logText : String
  deriving DecidableEq

/-- Row of `arena_ai_notes`. -/
structure AiNote where
  studentId : ℕ
  attemptId : ℕ
  topicTag : String
  mistakeSummary : String
  quickFix : String
  memoryTrick : String
  deriving DecidableEq

/-- One practice question of a revision plan (`practice_q` JSON entry). -/
structure PracticeQuestion where
  question : String
  optionA : String
  optionB : String
  optionC : String
  optionD : String
  correct : String
  explanation : String
  topic : String
  deriving DecidableEq

/-- One topic suggestion of a revision plan. -/
structure TopicSuggestion where
  topic : String
  mistakeCount : ℕ
  priority : String
  deriving DecidableEq

/-- Row of `arena_revision_plans`. -/
structure RevisionPlan where
  studentId : ℕ
  attemptId : ℕ
  exam : String
  subject : String
  mistakeSummary : String
  revisionNotes : String
  practiceQuestions : List PracticeQuestion
  topicSuggestions : List TopicSuggestion
  readinessBefore : ℚ
  deriving DecidableEq

/-- Row of `arena_achievements`. -/
structure AchRow where
  studentId : ℕ
  code : String
  title : String
  achText : String
  icon : String
  deriving DecidableEq

/-- The relational store the arena routes read and write. `attempts` is
kept newest-first by creation time. -/
structure ArenaState where
  questionBank : List Question
  attempts : List Attempt
  attemptAnswers : List AnswerRow
  rankStatus : List RankRow
  xpLog : List XpRow
  topicMastery : List MasteryRow
  aiNotes : List AiNote
  revisionPlans : List RevisionPlan
  achievements : List AchRow
  deriving DecidableEq

/-- Analytics steps `submit_attempt` executes, in order of appearance. -/
inductive ArenaEvent where
  | finalizeAttempt
  | awardXpQuiz
  | xpStreakUpdate
  | rankNameUpdate
  | masteryUpdate
  | readinessUpdate
  | aiNotesGen
  | revisionPlanGen
  | achievementsCheck
  | leaderboardRecalc
  deriving DecidableEq

/-- Response of the `submit_attempt` route. -/
inductive SubmitResponse where
  | failure (msg : String) (code : ℕ)
  | success (redirectSessionId : ℕ)
  deriving DecidableEq

/-- One element of the request's `answers` array (keys may be absent). -/
structure AnswerInput where
  questionId : Option ℕ
  selectedOption : Option String
  deriving DecidableEq

/-- JSON body of the submit request. -/
structure SubmitRequest where
  sessionId : Option ℕ
  answers : List AnswerInput
  deriving DecidableEq

/-- Index of the first occurrence of an event in a trace. -/
def idxOfEvent (e : ArenaEvent) : List ArenaEvent → ℕ
  | [] => 0
  | f :: rest => if f = e then 0 else idxOfEvent e rest + 1

/-- Completed attempts of a student for an exam × subject, newest first
(the `status='completed' ORDER BY created_at DESC` query before `LIMIT`). -/
def completedAttempts (s : ArenaState) (uid : ℕ) (exam subject : String) : List Attempt :=
  s.attempts.filter (fun a =>
    a.studentId = uid ∧ a.exam = exam ∧ a.subject = subject ∧ a.status = "completed")

/-- Result of the scoring loop of `submit_attempt`. -/
structure ScoreResult where
  score : ℕ
  wrong : List Question
  correct : List Question
  rows : List AnswerRow
  deriving DecidableEq

/-- Scoring loop of `submit_attempt`: looks each answer's question up in the
bank, counts correct ones, collects wrong/correct question rows, and builds
the `arena_attempt_answers` inserts (a full snapshot row when the question
exists, a minimal `is_correct=0` row otherwise). -/
def scoreAnswers (bank : List Question) (sessionId : ℕ) : List AnswerInput → ScoreResult
  | [] => ⟨0, [], [], []⟩
  | ans :: rest =>
    let tl := scoreAnswers bank sessionId rest
    match bank.find? (fun q => some q.id = ans.questionId) with
    | some q =>
      if some q.correctOption = ans.selectedOption then
        ⟨tl.score + 1, tl.wrong, q :: tl.correct,
          ⟨sessionId, ans.questionId, ans.selectedOption, true, some q.questionText,
            some q.optionA, some q.optionB, some q.optionC, some q.optionD,
            some q.correctOption, some q.explanation⟩ :: tl.rows⟩
      else
        ⟨tl.score, q :: tl.wrong, tl.correct,
          ⟨sessionId, ans.questionId, ans.selectedOption, false, some q.questionText,
            some q.optionA, some q.optionB, some q.optionC, some q.optionD,
            some q.correctOption, some q.explanation⟩ :: tl.rows⟩
    | none =>
      ⟨tl.score, tl.wrong, tl.correct,
        ⟨sessionId, ans.questionId, ans.selectedOption, false,
          none, none, none, none, none, none, none⟩ :: tl.rows⟩

/-- XP award, `_award_xp`: appends a ledger row; only the `achievement`
source also bumps `xp_total` (quiz XP is added by the explicit update in
`submit_attempt`). -/
def awardXp (s : ArenaState) (uid : ℕ) (amount : ℚ) (source logText : String) : ArenaState :=
  let s1 := { s with xpLog := s.xpLog ++ [⟨uid, amount, source, logText⟩] }
  if source = "achievement" then
    { s1 with rankStatus := s1.rankStatus.map (fun r =>
        if r.studentId = uid then { r with xpTotal := r.xpTotal + amount } else r) }
  else s1

/-- Accumulates the `topic_stats` dict of `_update_topic_mastery` in
insertion order: (topic, correct count, total count). -/
def addTopicStat : List (String × ℕ × ℕ) → String → Bool → List (String × ℕ × ℕ)
  | [], t, c => [(t, (if c then 1 else 0), 1)]
  | (u, cor, tot) :: rest, t, c =>
    if u = t then (u, cor + (if c then 1 else 0), tot + 1) :: rest
    else (u, cor, tot) :: addTopicStat rest t c

/-- The `topic_stats` dict after walking correct answers then wrong answers. -/
def collectTopicStats (correct wrong : List Question) : List (String × ℕ × ℕ) :=
  ((correct.map (fun q => (q.topicTag, true))) ++ (wrong.map (fun q => (q.topicTag, false)))).foldl
    (fun acc p => addTopicStat acc p.1 p.2) []

/-- Upsert of one `arena_topic_mastery` row (insert-or-update on the unique
(student, exam, subject, topic) key). -/
def upsertMastery (rows : List MasteryRow) (uid : ℕ) (exam subject topic : String)
    (score : ℚ) (weak : Bool) : List MasteryRow :=
  if rows.any (fun m => m.studentId = uid ∧ m.exam = exam ∧ m.subject = subject ∧ m.topicTag = topic) then
    rows.map (fun m =>
      if m.studentId = uid ∧ m.exam = exam ∧ m.subject = subject ∧ m.topicTag = topic then
        { m with masteryScore := score, weakFlag := weak }
      else m)
  else rows ++ [⟨uid, exam, subject, topic, score, weak⟩]

/-- Topic mastery update, `_update_topic_mastery`: per topic of this
attempt, blend 70% of the fresh accuracy with 30% of the stored mastery
(fresh accuracy alone when no row exists), set the weak flag below 50 and
upsert rounded to 1 decimal. An empty topic tag is skipped. -/
def updateTopicMastery (s : ArenaState) (uid : ℕ) (exam subject : String)
    (wrong correct : List Question) : ArenaState :=
  (collectTopicStats correct wrong).foldl (fun st p =>
    let topic := p.1
    let cor := p.2.1
    let tot := p.2.2
    if topic = "" then st
    else
      let accuracy : ℚ := if tot > 0 then (cor : ℚ) / (tot : ℚ) * 100 else 0
      let blended := match st.topicMastery.find? (fun m =>
          m.studentId = uid ∧ m.exam = exam ∧ m.subject = subject ∧ m.topicTag = topic) with
        | some m => accuracy * 0.7 + m.masteryScore * 0.3
        | none => accuracy
      { st with topicMastery :=
          upsertMastery st.topicMastery uid exam subject topic (round1 blended) (blended < 50) }) s

/-- Memory trick lookup of `_generate_memory_trick` (the `tricks` dict with
its fallback template). -/
def generateMemoryTrick (topic explText : String) : String :=
  if topic = "Mechanics" then
    "Remember: F=ma is the foundation. Mass stays, force and acceleration are proportional!"
  else if topic = "Thermodynamics" then
    "Think of heat as water flowing downhill — from hot to cold, never backward without work."
  else if topic = "Electrostatics" then
    "Like charges repel, unlike attract. Force drops with square of distance (inverse square law)."
  else if topic = "Optics" then
    "Mirror mirror on the wall: concave converges, convex diverges. Lenses do the opposite!"
  else if topic = "Atomic Structure" then
    "Remember: n (principal) = size, l (azimuthal) = shape, m = orientation, s = spin."
  else if topic = "Chemical Bonding" then
    "Sigma bonds are strong head-on overlaps. Pi bonds are weaker sideways overlaps."
  else if topic = "Cell Biology" then
    "Mitochondria = powerhouse, Ribosome = protein factory, Lysosome = recycling center."
  else if topic = "Genetics" then
    "DNA → RNA → Protein. Central dogma never changes!"
  else if topic = "Calculus" then
    "Derivative = slope of tangent, Integral = area under curve. They are inverses!"
  else if topic = "Algebra" then
    "Quadratic formula: x = (-b ± √(b²-4ac)) / 2a. Never forget the ±!"
  else
    "Focus on understanding the core concept: " ++ explText.take 80 ++ "..."

/-- AI note generation, `_generate_ai_notes`: one note per distinct topic
among the wrong answers, in first-appearance order. -/
def generateAiNotes (s : ArenaState) (uid attemptId : ℕ) (wrong : List Question) : ArenaState :=
  (wrong.foldl (fun acc q =>
    if q.topicTag ∈ acc.1 then acc
    else
      (q.topicTag :: acc.1,
        { acc.2 with aiNotes := acc.2.aiNotes ++
          [⟨uid, attemptId, q.topicTag,
            "Missed a question on " ++ q.topicTag ++ ": " ++ q.questionText.take 100 ++ "...",
            "The correct answer was \x27" ++ q.correctOption ++ "\x27. " ++ q.explanation,
            generateMemoryTrick q.topicTag q.explanation⟩] })) ([], s)).2

/-- Wrong answers of an attempt joined back to the question bank (the
`aa JOIN qb ON aa.question_id = qb.id WHERE is_correct=0` query). -/
def wrongJoined (s : ArenaState) (attemptId : ℕ) : List (AnswerRow × Question) :=
  (s.attemptAnswers.filter (fun r => r.attemptId = attemptId ∧ r.isCorrect = false)).filterMap
    (fun r => (s.questionBank.find? (fun q => some q.id = r.questionId)).map (fun q => (r, q)))

/-- Accumulates the `topic_mistakes` dict in insertion order. -/
def addMistake : List (String × List Question) → Question → List (String × List Question)
  | [], q => [(q.topicTag, [q])]
  | (t, qs) :: rest, q =>
    if t = q.topicTag then (t, qs ++ [q]) :: rest
    else (t, qs) :: addMistake rest q

/-- Wrong answers grouped by topic tag in first-appearance order. -/
def groupByTopic (l : List (AnswerRow × Question)) : List (String × List Question) :=
  l.foldl (fun acc p => addMistake acc p.2) []

/-- The `mistake_summary` prose of a revision plan. -/
def mistakeSummaryText (groups : List (String × List Question)) : String :=
  groups.foldl (fun acc p =>
    acc ++ "\n### " ++ p.1 ++ " (" ++ toString p.2.length ++ " mistake"
      ++ (if p.2.length > 1 then "s" else "") ++ ")\n"
      ++ (p.2.take 3).foldl (fun b m =>
          b ++ "- Q: " ++ m.questionText.take 80 ++ "... → Correct: " ++ m.correctOption ++ "\n") "") ""

/-- The `revision_notes` prose of a revision plan. -/
def revisionNotesText (groups : List (String × List Question)) : String :=
  groups.foldl (fun acc p =>
    acc ++ "\n## " ++ p.1 ++ "\n"
      ++ (p.2.take 2).foldl (fun b m =>
          b ++ "**Key concept:** " ++ m.explanation.take 150 ++ "\n\n") ""
      ++ (match p.2 with
          | [] => ""
          | m0 :: _ => "💡 **Memory Trick:** " ++ generateMemoryTrick p.1 m0.explanation ++ "\n")) ""

/-- Candidate practice questions of the weak topics, excluding questions of
the triggering attempt (SQL `id NOT IN (...)`; a NULL in the subquery makes
`NOT IN` select nothing). -/
def practiceCandidates (s : ArenaState) (exam subject : String) (weakTags : List String)
    (attemptId : ℕ) : List Question :=
  let answered := (s.attemptAnswers.filter (fun r => r.attemptId = attemptId)).map
    (fun r => r.questionId)
  if none ∈ answered then []
  else s.questionBank.filter (fun q =>
    q.exam = exam ∧ q.subject = subject ∧ q.topicTag ∈ weakTags ∧ ¬ some q.id ∈ answered)

/-- Revision plan generation, `_generate_revision_plan`: returns the state
unchanged when the attempt has no joined wrong answers, otherwise records
one plan row with readiness-before, prose summaries, up to 3 randomly
ordered practice questions and per-topic suggestions. -/
def generateRevisionPlan (rand : List Question → List Question) (sqrtQ : ℚ → ℚ)
    (s : ArenaState) (uid attemptId : ℕ) (exam subject : String) : ArenaState :=
  let wrong := wrongJoined s attemptId
  if wrong = [] then s
  else
    let readinessBefore := computeReadiness sqrtQ ((completedAttempts s uid exam subject).take 10)
    let groups := groupByTopic wrong
    let weakTags := groups.map (fun p => p.1)
    let practice := ((rand (practiceCandidates s exam subject weakTags attemptId)).take 3).map
      (fun q => (⟨q.questionText, q.optionA, q.optionB, q.optionC, q.optionD,
        q.correctOption, q.explanation, q.topicTag⟩ : PracticeQuestion))
    let sugg := groups.map (fun p =>
      (⟨p.1, p.2.length, if p.2.length ≥ 2 then "HIGH" else "MEDIUM"⟩ : TopicSuggestion))
    { s with revisionPlans := s.revisionPlans ++
        [⟨uid, attemptId, exam, subject, mistakeSummaryText groups, revisionNotesText groups,
          practice, sugg, readinessBefore⟩] }

/-- The `ACHIEVEMENTS` metadata dict: (title, text, icon) per code. -/
def achievementMeta (code : String) : String × String × String :=
  if code = "FIRST_BLOOD" then ("First Blood", "Complete your first quiz", "⚔️")
  else if code = "SPEED_DEMON" then ("Speed Demon", "Complete a quiz with avg time < 10s", "⚡")
  else if code = "PERFECT_10" then ("Perfect 10", "Score 10/10 in a quiz", "🎯")
  else if code = "STREAK_MASTER" then ("Streak Master", "Reach a 7-day streak", "🔥")
  else if code = "BOSS_SLAYER" then ("Boss Slayer", "Win a Boss Fight", "👹")
  else if code = "SCHOLAR" then ("Scholar", "Reach Level 5", "🎓")
  else ("Legend", "Reach Diamond Rank", "💎")

/-- Attempt statistics handed to `_check_achievements`. -/
structure AttemptData where
  score : ℕ
  totalQuestions : ℕ
  avgTime : ℚ
  attemptType : String
  deriving DecidableEq

/-- The `_unlock` closure of `_check_achievements`: inserts the badge and
awards 100 achievement XP unless the code is already owned. -/
def unlockAchievement (s : ArenaState) (uid : ℕ) (owned : List String) (code : String) :
    ArenaState × List String :=
  if code ∈ owned then (s, owned)
  else
    let meta := achievementMeta code
    (awardXp { s with achievements := s.achievements ++ [⟨uid, code, meta.1, meta.2.1, meta.2.2⟩] }
        uid 100 "achievement" ("Unlocked: " ++ meta.1),
      owned ++ [code])

/-- Achievement checks of `_check_achievements`, in source order; the rank
row is read once up front, so the conditions see pre-unlock XP. -/
def checkAchievements (s : ArenaState) (uid : ℕ) (attemptData : Option AttemptData) : ArenaState :=
  let rankRow := s.rankStatus.find? (fun r => r.studentId = uid)
  let owned := (s.achievements.filter (fun a => a.studentId = uid)).map (fun a => a.code)
  let totalAttempts := (s.attempts.filter (fun a => a.studentId = uid)).length
  let level : ℤ := match rankRow with | some r => getLevel r.xpTotal | none => 1
  let conds : List (Bool × String) :=
    [(decide (totalAttempts ≥ 1), "FIRST_BLOOD"),
     (decide (level ≥ 5), "SCHOLAR"),
     ((match rankRow with | some r => decide (r.rankName = "Diamond") | none => false), "LEGEND"),
     ((match rankRow with | some r => decide (r.streakDays ≥ 7) | none => false), "STREAK_MASTER")]
    ++ (match attemptData with
        | some d =>
          [(decide (d.score = d.totalQuestions ∧ d.totalQuestions ≥ 10), "PERFECT_10"),
           (decide (d.avgTime < 10 ∧ d.totalQuestions ≥ 5), "SPEED_DEMON"),
           (decide (d.attemptType = "boss_fight" ∧ d.score ≥ 10), "BOSS_SLAYER")]
        | none => [])
  (conds.foldl (fun acc p =>
    if p.1 then unlockAchievement acc.1 uid acc.2 p.2 else acc) (s, owned)).1

/-- Finalizing update of the attempt row (`UPDATE arena_attempts SET ...
WHERE id=?`), applied to every row of the table. -/
def finalizeUpd (sessionId : ℕ) (score xpEarned accuracy avgTime timeTaken : ℚ)
    (difficultyEnd : String) (a : Attempt) : Attempt :=
  if a.id = sessionId then
    { a with
      score := score, status := "completed", xpEarned := xpEarned
      accuracyPercent := some accuracy, avgTimePerQuestion := some avgTime
      timeTakenTotal := timeTaken, difficultyEnd := some difficultyEnd }
  else a

/-- Per-row update of `xp_total = xp_total + ?, streak_days = streak_days + 1`. -/
def bumpFn (uid : ℕ) (xpEarned : ℚ) (r : RankRow) : RankRow :=
  if r.studentId = uid then
    { r with xpTotal := r.xpTotal + xpEarned, streakDays := r.streakDays + 1 }
  else r

/-- Per-row update of `rank_name = ?`. -/
def setRankFn (uid : ℕ) (name : String) (r : RankRow) : RankRow :=
  if r.studentId = uid then { r with rankName := name } else r

/-- Per-row update of `readiness_score = ?`. -/
def setReadinessFn (uid : ℕ) (rd : ℚ) (r : RankRow) : RankRow :=
  if r.studentId = uid then { r with readinessScore := rd } else r

/-- The `submit_attempt` route handler as a transition on the store:
returns the new store, the HTTP response and the trace of analytics steps. -/
def submitAttempt (rand : List Question → List Question) (sqrtQ : ℚ → ℚ) (now : ℚ)
    (uid : ℕ) (req : SubmitRequest) (s : ArenaState) :
    ArenaState × SubmitResponse × List ArenaEvent :=
  match req.sessionId with
  | none => (s, .failure "Missing session ID or answers" 400, [])
  | some sessionId =>
    if sessionId = 0 ∨ req.answers = [] then
      (s, .failure "Missing session ID or answers" 400, [])
    else
      match s.attempts.find? (fun a =>
          a.id = sessionId ∧ a.studentId = uid ∧ a.status = "ongoing") with
      | none =>
        match s.attempts.find? (fun a =>
            a.id = sessionId ∧ a.studentId = uid ∧ a.status = "completed") with
        | some _ => (s, .success sessionId, [])
        | none => (s, .failure "Invalid session" 400, [])
      | some attempt =>
        let exam := attempt.exam
        let subject := attempt.subject
        let sr := scoreAnswers s.questionBank sessionId req.answers
        let total := req.answers.length
        let durationSeconds := now - attempt.createdAt
        let avgTime := if total > 0 then durationSeconds / (total : ℚ) else 0
        let s1 : ArenaState := { s with attemptAnswers := s.attemptAnswers ++ sr.rows }
        let xpEarned : ℚ := (sr.score : ℚ) * 10 + 50
        let accuracy : ℚ := if total ≠ 0 then (sr.score : ℚ) / (total : ℚ) * 100 else 0
        let difficultyEnd := pickAdaptiveDifficulty ((completedAttempts s1 uid exam subject).take 3)
        let s2 : ArenaState := { s1 with attempts := s1.attempts.map (finalizeUpd sessionId (sr.score : ℚ) xpEarned accuracy avgTime (pyInt durationSeconds : ℚ) difficultyEnd) }
        let s3 : ArenaState := awardXp s2 uid xpEarned "quiz" ("Completed " ++ attempt.attemptType ++ " quiz")
        let s4 : ArenaState := { s3 with rankStatus := s3.rankStatus.map (bumpFn uid xpEarned) }
        let rankRow := s4.rankStatus.find? (fun r => r.studentId = uid)
        let s5 : ArenaState := match rankRow with
          | some rr => { s4 with rankStatus := s4.rankStatus.map (setRankFn uid (calculateRank rr.xpTotal accuracy rr.streakDays)) }
          | none => s4
        let rankEvents := match rankRow with
          | some _ => [ArenaEvent.rankNameUpdate]
          | none => []
        let s6 : ArenaState := updateTopicMastery s5 uid exam subject sr.wrong sr.correct
        let readiness := computeReadiness sqrtQ ((completedAttempts s6 uid exam subject).take 10)
        let s7 : ArenaState := { s6 with rankStatus := s6.rankStatus.map (setReadinessFn uid readiness) }
        let s8 : ArenaState := if sr.wrong ≠ [] then generateAiNotes s7 uid sessionId sr.wrong else s7
        let noteEvents := if sr.wrong ≠ [] then [ArenaEvent.aiNotesGen] else []
        let mockCnt := (s8.attempts.filter (fun a =>
            a.studentId = uid ∧ a.attemptType = "mock" ∧ a.exam = exam ∧ a.subject = subject ∧
            a.status = "completed")).length
        let s9 : ArenaState := if (mockCnt ≥ 3 ∨ accuracy < 40) ∧ sr.wrong ≠ [] then
            generateRevisionPlan rand sqrtQ s8 uid sessionId exam subject
          else s8
        let revEvents := if (mockCnt ≥ 3 ∨ accuracy < 40) ∧ sr.wrong ≠ [] then
            [ArenaEvent.revisionPlanGen]
          else []
        let s10 : ArenaState := checkAchievements s9 uid (some ⟨sr.score, total, avgTime, attempt.attemptType⟩)
        (s10, .success sessionId,
          [ArenaEvent.finalizeAttempt, ArenaEvent.awardXpQuiz, ArenaEvent.xpStreakUpdate]
            ++ rankEvents ++ [ArenaEvent.masteryUpdate, ArenaEvent.readinessUpdate]
            ++ noteEvents ++ revEvents ++ [ArenaEvent.achievementsCheck])

/-!
Theorems. Helper lemmas about the Python numeric model come first, then one
theorem per specification claim (with witnesses and counterexamples).
-/

theorem pyOrQ_some (x : ℚ) : pyOrQ (some x) 0 = x := by
  unfold pyOrQ
  split <;> simp_all

theorem pyRound_intCast (n : ℤ) : pyRound (n : ℚ) = n := by
  unfold pyRound
  norm_num

theorem floor_le_pyRound (x : ℚ) : ⌊x⌋ ≤ pyRound x := by
  unfold pyRound
  split_ifs <;> omega

theorem pyRound_le_floor_add_one (x : ℚ) : pyRound x ≤ ⌊x⌋ + 1 := by
  unfold pyRound
  split_ifs <;> omega

theorem pyRound_mono {x y : ℚ} (h : x ≤ y) : pyRound x ≤ pyRound y := by
  rcases lt_or_le ⌊x⌋ ⌊y⌋ with hf | hf
  · calc pyRound x ≤ ⌊x⌋ + 1 := pyRound_le_floor_add_one x
      _ ≤ ⌊y⌋ := by omega
      _ ≤ pyRound y := floor_le_pyRound y
  · have hfe : ⌊x⌋ = ⌊y⌋ := le_antisymm (Int.floor_le_floor h) hf
    unfold pyRound
    rw [← hfe]
    have hxy : x - ⌊x⌋ ≤ y - ⌊x⌋ := by linarith
    split_ifs <;> first | omega | linarith

theorem round1_mono {x y : ℚ} (h : x ≤ y) : round1 x ≤ round1 y := by
  unfold round1
  have := pyRound_mono (mul_le_mul_of_nonneg_left h (by norm_num : (0:ℚ) ≤ 10))
  have hc : ((pyRound (10 * x) : ℚ)) ≤ (pyRound (10 * y) : ℚ) := by exact_mod_cast this
  linarith

theorem round1_intCast (n : ℤ) : round1 (n : ℚ) = 10 * n / 10 := by
  unfold round1
  have : (10 : ℚ) * n = ((10 * n : ℤ) : ℚ) := by push_cast; ring
  rw [this, pyRound_intCast]

theorem round1_bounds {x : ℚ} (h0 : 0 ≤ x) (h100 : x ≤ 100) :
    0 ≤ round1 x ∧ round1 x ≤ 100 := by
  have hlo : round1 0 ≤ round1 x := round1_mono h0
  have hhi : round1 x ≤ round1 100 := round1_mono h100
  have e0 : round1 0 = 0 := by
    have : ((0 : ℤ) : ℚ) = (0 : ℚ) := by norm_num
    rw [← this, round1_intCast]; norm_num
  have e100 : round1 100 = 100 := by
    have : ((100 : ℤ) : ℚ) = (100 : ℚ) := by norm_num
    rw [← this, round1_intCast]; norm_num
  constructor
  · rw [e0] at hlo; exact hlo
  · rw [e100] at hhi; exact hhi

/-- C1: for every attempt history in which the two most recent completed
attempts both have accuracy_percent < 40, `_pick_adaptive_difficulty`
returns Easy, regardless of the weighted accuracy and speed averages and of
the previous difficulty_end. -/
theorem claimC1 (r0 r1 : Attempt) (rest : List Attempt) (a0 a1 : ℚ)
    (h0 : r0.accuracyPercent = some a0) (h0lt : a0 < 40)
    (h1 : r1.accuracyPercent = some a1) (h1lt : a1 < 40) :
    pickAdaptiveDifficulty (r0 :: r1 :: rest) = "Easy" := by
  have f0 : pyOrQ r0.accuracyPercent 0 < 40 := by rw [h0, pyOrQ_some]; exact h0lt
  have f1 : pyOrQ r1.accuracyPercent 0 < 40 := by rw [h1, pyOrQ_some]; exact h1lt
  have hc : consecutiveFails (r0 :: r1 :: rest) ≥ 2 := by
    simp only [consecutiveFails, if_pos f0, if_pos f1]
    omega
  unfold pickAdaptiveDifficulty
  dsimp only
  rw [if_pos hc]

/-- Witness for C1 at a concrete two-failure history. -/
theorem claimC1_witness :
    pickAdaptiveDifficulty
      [⟨1, 7, "JEE", "Physics", "mock", "completed", 3, 10, some 30, some 20, some "Medium", some "Hard", 80, 500, 1⟩,
       ⟨2, 7, "JEE", "Physics", "mock", "completed", 35/10, 10, some 35, some 20, some "Medium", some "Hard", 85, 480, 0⟩] = "Easy" :=
  claimC1 _ _ [] 30 35 rfl (by norm_num) rfl (by norm_num)

/-- C7: `_calculate_rank` equals the reference definition written from the
spec; `computeRank(0,0,0) = Bronze`; `computeRank(2000,90,10) = Diamond`;
and the function is monotone in all three inputs (with respect to the tier
order Bronze < Silver < Gold < Platinum < Diamond). -/
theorem claimC7 :
    (∀ xp accuracy streak : ℚ, calculateRank xp accuracy streak = calculateRankSpec xp accuracy streak) ∧
    calculateRank 0 0 0 = "Bronze" ∧
    calculateRank 2000 90 10 = "Diamond" ∧
    (∀ x1 x2 a1 a2 s1 s2 : ℚ, x1 ≤ x2 → a1 ≤ a2 → s1 ≤ s2 →
      rankLevel (calculateRank x1 a1 s1) ≤ rankLevel (calculateRank x2 a2 s2)) := by
  refine ⟨fun _ _ _ => rfl, by norm_num [calculateRank], by norm_num [calculateRank], ?_⟩
  intro x1 x2 a1 a2 s1 s2 hx ha hs
  have hsc : x1 * 0.5 + a1 * 3 + s1 * 10 ≤ x2 * 0.5 + a2 * 3 + s2 * 10 := by linarith
  unfold calculateRank
  dsimp only
  split_ifs <;> simp_all [rankLevel] <;> linarith

/-- Witness for C7's monotonicity conjunct at concrete inputs. -/
theorem claimC7_witness :
    rankLevel (calculateRank 0 0 0) ≤ rankLevel (calculateRank 2000 90 10) :=
  claimC7.2.2.2 0 2000 0 90 0 10 (by norm_num) (by norm_num) (by norm_num)

/-- C5: `_compute_readiness` returns exactly 0 on an empty completed-attempt
history, and on every non-empty history its result lies in [0,100] and is an
integer multiple of 1/10 (rounded to 1 decimal place). -/
theorem claimC5 (sqrtQ : ℚ → ℚ) :
    computeReadiness sqrtQ [] = 0 ∧
    ∀ attempts : List Attempt, attempts ≠ [] →
      0 ≤ computeReadiness sqrtQ attempts ∧ computeReadiness sqrtQ attempts ≤ 100 ∧
      ∃ z : ℤ, computeReadiness sqrtQ attempts = (z : ℚ) / 10 := by
  refine ⟨by simp [computeReadiness], ?_⟩
  intro attempts h
  have hred : computeReadiness sqrtQ attempts
      = round1 (min 100 (max 0 (readinessRaw sqrtQ attempts))) := by
    unfold computeReadiness
    rw [if_neg h]
  have h0 : (0 : ℚ) ≤ min 100 (max 0 (readinessRaw sqrtQ attempts)) :=
    le_min (by norm_num) (le_max_left 0 _)
  have h100 : min 100 (max 0 (readinessRaw sqrtQ attempts)) ≤ (100 : ℚ) :=
    min_le_left _ _
  obtain ⟨hb0, hb100⟩ := round1_bounds h0 h100
  refine ⟨by rw [hred]; exact hb0, by rw [hred]; exact hb100,
    ⟨pyRound (10 * min 100 (max 0 (readinessRaw sqrtQ attempts))), by rw [hred]; rfl⟩⟩

/-- Witness for C5 at a concrete one-attempt history. -/
theorem claimC5_witness :
    0 ≤ computeReadiness (fun _ => 0)
        [⟨1, 7, "JEE", "Physics", "mock", "completed", 3, 10, some 30, some 20, some "Medium", some "Hard", 80, 500, 1⟩] ∧
    computeReadiness (fun _ => 0)
        [⟨1, 7, "JEE", "Physics", "mock", "completed", 3, 10, some 30, some 20, some "Medium", some "Hard", 80, 500, 1⟩] ≤ 100 :=
  ⟨((claimC5 (fun _ => 0)).2 _ (by simp)).1, ((claimC5 (fun _ => 0)).2 _ (by simp)).2.1⟩

theorem accWeight_pos (i : ℕ) : 0 < accWeight i := by
  unfold accWeight
  positivity

theorem accWeighted_mono {xs ys : List Attempt} (h : List.Forall₂ AccGE xs ys) :
    ∀ i, (accWeighted i ys).1 ≤ (accWeighted i xs).1 ∧
      (accWeighted i ys).2 = (accWeighted i xs).2 := by
  induction h with
  | nil => intro i; exact ⟨le_refl _, rfl⟩
  | @cons a b as bs hab htl ih =>
    intro i
    obtain ⟨ih1, ih2⟩ := ih (i + 1)
    refine ⟨?_, ?_⟩
    · simp only [accWeighted]
      exact add_le_add
        (mul_le_mul_of_nonneg_right hab.acc_ge (le_of_lt (accWeight_pos i))) ih1
    · simp only [accWeighted]
      rw [ih2]

theorem diffScore_congr {a b : Attempt} (h : AccGE a b) : diffScore a = diffScore b := by
  unfold diffScore
  rw [h.diff_end_eq, h.diff_start_eq]

theorem map_diffScore_congr {xs ys : List Attempt} (h : List.Forall₂ AccGE xs ys) :
    xs.map diffScore = ys.map diffScore := by
  induction h with
  | nil => rfl
  | cons hab _ ih => simp [diffScore_congr hab, ih]

theorem speedSample_congr {a b : Attempt} (h : AccGE a b) : speedSample a = speedSample b := by
  unfold speedSample
  rw [h.avg_time_eq]

theorem avgTimesOf_congr {xs ys : List Attempt} (h : List.Forall₂ AccGE xs ys) :
    avgTimesOf xs = avgTimesOf ys := by
  induction h with
  | nil => rfl
  | cons hab _ ih =>
    simp only [avgTimesOf, List.filterMap_cons] at *
    rw [speedSample_congr hab, ih]

theorem failedCount_mono {xs ys : List Attempt} (h : List.Forall₂ AccGE xs ys) :
    (xs.filter (fun a => pyOrQ a.accuracyPercent 0 < 40)).length ≤
      (ys.filter (fun a => pyOrQ a.accuracyPercent 0 < 40)).length := by
  induction h with
  | nil => simp
  | @cons a b as bs hab htl ih =>
    simp only [List.filter_cons]
    by_cases hfa : pyOrQ a.accuracyPercent 0 < 40
    · have hfb : pyOrQ b.accuracyPercent 0 < 40 := lt_of_le_of_lt hab.acc_percent_ge hfa
      rw [if_pos (decide_eq_true hfa), if_pos (decide_eq_true hfb)]
      simp only [List.length_cons]
      omega
    · rw [if_neg (by simpa using hfa)]
      by_cases hfb : pyOrQ b.accuracyPercent 0 < 40
      · rw [if_pos (decide_eq_true hfb)]
        simp only [List.length_cons]
        omega
      · rw [if_neg (by simpa using hfb)]
        exact ih

theorem accuracyComponent_mono {xs ys : List Attempt} (h : List.Forall₂ AccGE xs ys) :
    accuracyComponent ys ≤ accuracyComponent xs := by
  unfold accuracyComponent
  obtain ⟨hw1, hw2⟩ := accWeighted_mono h 0
  dsimp only
  rw [hw2]
  split_ifs with hpos
  · exact mul_le_mul_of_nonneg_right ((div_le_div_iff_of_pos_right hpos).mpr hw1) (by norm_num)
  · exact le_refl _

theorem attemptPenaltyComponent_mono {xs ys : List Attempt} (h : List.Forall₂ AccGE xs ys) :
    attemptPenaltyComponent ys ≤ attemptPenaltyComponent xs := by
  unfold attemptPenaltyComponent
  have hlen : xs.length = ys.length := h.length_eq
  have hfail := failedCount_mono h
  dsimp only
  rw [← hlen]
  split_ifs with hpos
  · have hlq : (0 : ℚ) < (xs.length : ℚ) := by exact_mod_cast hpos
    have hratio : ((xs.filter (fun a => pyOrQ a.accuracyPercent 0 < 40)).length : ℚ) / (xs.length : ℚ)
        ≤ ((ys.filter (fun a => pyOrQ a.accuracyPercent 0 < 40)).length : ℚ) / (xs.length : ℚ) := by
      apply (div_le_div_iff_of_pos_right hlq).mpr
      exact_mod_cast hfail
    exact mul_le_mul_of_nonneg_right (max_le_max (le_refl 0) (by linarith)) (by norm_num)
  · exact le_refl _

theorem readinessRaw_mono (sqrtQ : ℚ → ℚ) {xs ys : List Attempt}
    (h : List.Forall₂ AccGE xs ys) :
    readinessRaw sqrtQ ys ≤ readinessRaw sqrtQ xs := by
  unfold readinessRaw
  have hd : difficultyComponent ys = difficultyComponent xs := by
    unfold difficultyComponent
    rw [map_diffScore_congr h]
  have hs : speedComponent sqrtQ ys = speedComponent sqrtQ xs := by
    unfold speedComponent
    rw [avgTimesOf_congr h]
  rw [hd, hs]
  have := accuracyComponent_mono h
  have := attemptPenaltyComponent_mono h
  linarith

/-- C6: `_compute_readiness` is monotonically non-decreasing in per-attempt
accuracy — for two histories identical except that every attempt's accuracy
(both `score/total_questions` and `accuracy_percent`) in the first dominates
the corresponding accuracy in the second, the readiness of the first is at
least the readiness of the second. -/
theorem claimC6 (sqrtQ : ℚ → ℚ) (xs ys : List Attempt)
    (h : List.Forall₂ AccGE xs ys) :
    computeReadiness sqrtQ ys ≤ computeReadiness sqrtQ xs := by
  rcases heq : xs with _ | ⟨x0, xtl⟩
  · subst heq
    have hys : ys = [] := by cases h; rfl
    subst hys
    simp [computeReadiness]
  · subst heq
    have hys : ys ≠ [] := by cases h; simp
    rw [computeReadiness, computeReadiness, if_neg hys, if_neg (by simp : x0 :: xtl ≠ [])]
    exact round1_mono (min_le_min (le_refl _)
      (max_le_max (le_refl _) (readinessRaw_mono sqrtQ h)))

/-- Witness for C6 at concrete one-attempt histories. -/
theorem claimC6_witness :
    computeReadiness (fun _ => 0)
        [⟨1, 7, "JEE", "Physics", "mock", "completed", 3, 10, some 30, some 20, some "Medium", some "Hard", 80, 500, 1⟩] ≤
      computeReadiness (fun _ => 0)
        [⟨1, 7, "JEE", "Physics", "mock", "completed", 8, 10, some 80, some 20, some "Medium", some "Hard", 80, 500, 1⟩] :=
  claimC6 (fun _ => 0) _ _
    (List.Forall₂.cons
      ⟨rfl, rfl, rfl, rfl, rfl, rfl, rfl, rfl, rfl, rfl, rfl, rfl, rfl,
        by norm_num [accValue], by norm_num [pyOrQ]⟩
      List.Forall₂.nil)

theorem maskTakeWhile (lcl domain : List Char) (h : '@' ∉ lcl) :
    (lcl ++ '@' :: domain).takeWhile (· ≠ '@') = lcl := by
  induction lcl with
  | nil =>
    rw [List.nil_append, List.takeWhile_cons, if_neg (by decide)]
  | cons c cs ih =>
    simp only [List.mem_cons, not_or] at h
    have hc : c ≠ '@' := fun hcc => h.1 hcc.symm
    rw [List.cons_append, List.takeWhile_cons, if_pos (decide_eq_true hc), ih h.2]

theorem maskDropWhile (lcl domain : List Char) (h : '@' ∉ lcl) :
    (lcl ++ '@' :: domain).dropWhile (· ≠ '@') = '@' :: domain := by
  induction lcl with
  | nil =>
    rw [List.nil_append, List.dropWhile_cons, if_neg (by decide)]
  | cons c cs ih =>
    simp only [List.mem_cons, not_or] at h
    have hc : c ≠ '@' := fun hcc => h.1 hcc.symm
    rw [List.cons_append, List.dropWhile_cons, if_pos (decide_eq_true hc), ih h.2]

/-- C9: `_mask_email` keeps the first character of a local part of length ≥ 2
followed by `***@` and the unchanged domain, and replaces a local part of
length ≤ 1 by `*@` plus the domain. -/
theorem claimC9 (lcl domain : List Char) (hno : '@' ∉ lcl) :
    (2 ≤ lcl.length →
      maskEmail (String.mk (lcl ++ '@' :: domain))
        = String.mk (lcl.take 1 ++ "***@".data ++ domain)) ∧
    (lcl.length ≤ 1 →
      maskEmail (String.mk (lcl ++ '@' :: domain)) = String.mk ('*' :: '@' :: domain)) := by
  have hcond : ¬((lcl ++ '@' :: domain) = [] ∨ '@' ∉ (lcl ++ '@' :: domain)) := by
    push_neg
    exact ⟨by simp, by simp⟩
  constructor
  · intro hlen
    unfold maskEmail maskEmailChars
    rw [if_neg hcond]
    dsimp only
    rw [maskTakeWhile _ _ hno, maskDropWhile _ _ hno, if_neg (by omega)]
    simp
  · intro hlen
    unfold maskEmail maskEmailChars
    rw [if_neg hcond]
    dsimp only
    rw [maskTakeWhile _ _ hno, maskDropWhile _ _ hno, if_pos hlen]
    rfl

/-- Witness for C9 at the two concrete addresses from the spec. -/
theorem claimC9_witness :
    maskEmail "john@gmail.com" = "j***@gmail.com" ∧ maskEmail "a@x.com" = "*@x.com" := by
  have h1 := (claimC9 ("john".data) ("gmail.com".data) (by decide)).1 (by decide)
  have h2 := (claimC9 ("a".data) ("x.com".data) (by decide)).2 (by decide)
  constructor
  · have e : ("john@gmail.com" : String) = String.mk ("john".data ++ '@' :: "gmail.com".data) := by
      decide
    rw [e, h1]
    decide
  · have e : ("a@x.com" : String) = String.mk ("a".data ++ '@' :: "x.com".data) := by
      decide
    rw [e, h2]

theorem insertDescLb_perm (e : LbEntry) (l : List LbEntry) :
    (insertDescLb e l).Perm (e :: l) := by
  induction l with
  | nil => exact List.Perm.refl _
  | cons f fs ih =>
    unfold insertDescLb
    split_ifs with hc
    · exact List.Perm.refl _
    · exact (ih.cons f).trans (List.Perm.swap e f fs)

theorem sortDescLb_perm (l : List LbEntry) : (sortDescLb l).Perm l := by
  induction l with
  | nil => exact List.Perm.refl _
  | cons e es ih =>
    exact (insertDescLb_perm e (sortDescLb es)).trans (ih.cons e)

theorem insertDescLb_sorted (e : LbEntry) (l : List LbEntry)
    (h : l.Pairwise (fun x y => y.composite ≤ x.composite)) :
    (insertDescLb e l).Pairwise (fun x y => y.composite ≤ x.composite) := by
  induction l with
  | nil => simp [insertDescLb]
  | cons f fs ih =>
    unfold insertDescLb
    rw [List.pairwise_cons] at h
    split_ifs with hc
    · refine List.Pairwise.cons ?_ (List.pairwise_cons.mpr h)
      intro x hx
      rcases List.mem_cons.mp hx with hx | hx
      · exact hx ▸ hc
      · exact le_trans (h.1 x hx) hc
    · push_neg at hc
      refine List.Pairwise.cons ?_ (ih h.2)
      intro x hx
      have := (insertDescLb_perm e fs).mem_iff.mp hx
      rcases List.mem_cons.mp this with hx2 | hx2
      · exact hx2 ▸ le_of_lt hc
      · exact h.1 x hx2

theorem sortDescLb_sorted (l : List LbEntry) :
    (sortDescLb l).Pairwise (fun x y => y.composite ≤ x.composite) := by
  induction l with
  | nil => simp [sortDescLb]
  | cons e es ih => exact insertDescLb_sorted e (sortDescLb es) ih

theorem filter_insertDescLb (e : LbEntry) (l : List LbEntry) (c : ℚ) :
    (insertDescLb e l).filter (fun x => x.composite = c)
      = if e.composite = c
        then e :: l.filter (fun x => x.composite = c)
        else l.filter (fun x => x.composite = c) := by
  induction l with
  | nil =>
    by_cases hec : e.composite = c <;>
      simp [insertDescLb, List.filter_cons, hec]
  | cons f fs ih =>
    unfold insertDescLb
    by_cases hc : e.composite ≥ f.composite
    · rw [if_pos hc]
      simp only [List.filter_cons]
      by_cases hec : e.composite = c <;> simp [hec]
    · rw [if_neg hc]
      push_neg at hc
      simp only [List.filter_cons, ih]
      by_cases hfc : f.composite = c
      · have hec : ¬ e.composite = c := by
          intro hec
          have h2 : e.composite = f.composite := hec.trans hfc.symm
          rw [h2] at hc
          exact lt_irrefl _ hc
        simp [hfc, hec]
      · by_cases hec : e.composite = c <;> simp [hfc, hec]

theorem filter_sortDescLb (l : List LbEntry) (c : ℚ) :
    (sortDescLb l).filter (fun x => x.composite = c)
      = l.filter (fun x => x.composite = c) := by
  induction l with
  | nil => rfl
  | cons e es ih =>
    unfold sortDescLb
    rw [filter_insertDescLb, ih, List.filter_cons]
    by_cases hec : e.composite = c
    · rw [if_pos hec, if_pos (decide_eq_true hec)]
    · rw [if_neg hec, if_neg (by simpa using hec)]

theorem lookupBoard_upsert (board : List LbRow) (r : LbRow) (sid cid : ℕ) :
    lookupBoard (upsertLb board r) sid cid
      = if r.studentId = sid ∧ r.classId = cid then some r
        else lookupBoard board sid cid := by
  induction board with
  | nil =>
    by_cases h : r.studentId = sid ∧ r.classId = cid <;>
      simp [upsertLb, lookupBoard, h]
  | cons x xs ih =>
    by_cases hx : x.studentId = r.studentId ∧ x.classId = r.classId
    · by_cases h : r.studentId = sid ∧ r.classId = cid
      · simp [upsertLb, lookupBoard, hx, h]
      · have hxk : ¬(x.studentId = sid ∧ x.classId = cid) := by
          rintro ⟨h1, h2⟩
          exact h ⟨hx.1.symm.trans h1, hx.2.symm.trans h2⟩
        simp [upsertLb, lookupBoard, hx, h, hxk]
    · by_cases hxk : x.studentId = sid ∧ x.classId = cid
      · have h : ¬(r.studentId = sid ∧ r.classId = cid) := by
          rintro ⟨h1, h2⟩
          exact hx ⟨hxk.1.trans h1.symm, hxk.2.trans h2.symm⟩
        unfold upsertLb
        rw [if_neg hx]
        simp [lookupBoard, h, hxk]
      · unfold upsertLb
        rw [if_neg hx]
        simpa [lookupBoard, hxk] using ih

theorem lookupBoard_foldl_absent (rows : List LbRow) (b : List LbRow) (sid cid : ℕ)
    (h : ∀ r' ∈ rows, ¬(r'.studentId = sid ∧ r'.classId = cid)) :
    lookupBoard (rows.foldl upsertLb b) sid cid = lookupBoard b sid cid := by
  induction rows generalizing b with
  | nil => rfl
  | cons r rest ih =>
    rw [List.foldl_cons, ih _ (fun r' hr' => h r' (List.mem_cons_of_mem r hr')),
      lookupBoard_upsert, if_neg (h r (List.mem_cons_self r rest))]

theorem lookupBoard_foldl_mem (rows : List LbRow) (b : List LbRow) (sid cid : ℕ)
    (r : LbRow) (hkey : r.studentId = sid ∧ r.classId = cid)
    (hmem : r ∈ rows)
    (honce : ∀ r' ∈ rows, r'.studentId = sid ∧ r'.classId = cid → r' = r) :
    lookupBoard (rows.foldl upsertLb b) sid cid = some r := by
  induction rows generalizing b with
  | nil => cases hmem
  | cons r0 rest ih =>
    rw [List.foldl_cons]
    by_cases hmem2 : r ∈ rest
    · exact ih _ hmem2 (fun r' hr' => honce r' (List.mem_cons_of_mem r0 hr'))
    · have hr0 : r0 = r := by
        rcases List.mem_cons.mp hmem with h | h
        · exact h.symm
        · exact absurd h hmem2
      have habs : ∀ r' ∈ rest, ¬(r'.studentId = sid ∧ r'.classId = cid) := by
        intro r' hr' hk
        exact hmem2 ((honce r' (List.mem_cons_of_mem r0 hr') hk) ▸ hr')
      rw [lookupBoard_foldl_absent rest _ sid cid habs, lookupBoard_upsert, hr0,
        if_pos hkey]

theorem idxOfSid_cons_eq {s sid : ℕ} (rest : List ℕ) (h : s = sid) :
    idxOfSid sid (s :: rest) = 0 := by
  simp [idxOfSid, h]

theorem idxOfSid_cons_ne {s sid : ℕ} (rest : List ℕ) (h : ¬ s = sid) :
    idxOfSid sid (s :: rest) = idxOfSid sid rest + 1 := by
  simp [idxOfSid, h]

theorem rankRows_sid_mem (classId : ℕ) :
    ∀ (l : List LbEntry) (i : ℕ) (r' : LbRow), r' ∈ rankRows classId i l →
      r'.studentId ∈ l.map (fun f => f.studentId) := by
  intro l
  induction l with
  | nil => intro i r' h; cases h
  | cons f fs ih =>
    intro i r' h
    rcases List.mem_cons.mp h with h | h
    · subst h
      exact List.mem_cons_self _ _
    · exact List.mem_cons_of_mem _ (ih (i + 1) r' h)

theorem rankRows_spec (classId : ℕ) (e : LbEntry) :
    ∀ (l : List LbEntry) (i : ℕ), e ∈ l →
      (l.map (fun f => f.studentId)).Nodup →
      (mkRowOf classId e (idxOfSid e.studentId (l.map (fun f => f.studentId)) + i)
          ∈ rankRows classId i l ∧
        ∀ r' ∈ rankRows classId i l, r'.studentId = e.studentId →
          r' = mkRowOf classId e (idxOfSid e.studentId (l.map (fun f => f.studentId)) + i)) := by
  intro l
  induction l with
  | nil => intro i h; cases h
  | cons f fs ih =>
    intro i hmem hnd
    rw [List.map_cons, List.nodup_cons] at hnd
    by_cases hf : f.studentId = e.studentId
    · have hfe : f = e := by
        rcases List.mem_cons.mp hmem with h | h
        · exact h.symm
        · exfalso
          apply hnd.1
          rw [hf]
          exact List.mem_map_of_mem (fun f => f.studentId) h
      have hidx : idxOfSid e.studentId ((f :: fs).map (fun f => f.studentId)) = 0 := by
        rw [List.map_cons]
        exact idxOfSid_cons_eq _ hf
      rw [hidx]
      constructor
      · rw [Nat.zero_add]
        unfold rankRows
        rw [hfe]
        exact List.mem_cons_self _ _
      · intro r' hr' hsid
        rcases List.mem_cons.mp hr' with h | h
        · rw [Nat.zero_add, h, hfe]
        · exfalso
          apply hnd.1
          rw [hf, ← hsid]
          exact rankRows_sid_mem classId fs (i + 1) r' h
    · have hmem2 : e ∈ fs := by
        rcases List.mem_cons.mp hmem with h | h
        · exact absurd (by rw [h]) hf
        · exact h
      have hidx : idxOfSid e.studentId ((f :: fs).map (fun f => f.studentId))
          = idxOfSid e.studentId (fs.map (fun f => f.studentId)) + 1 := by
        rw [List.map_cons]
        exact idxOfSid_cons_ne _ hf
      obtain ⟨ihm, ihu⟩ := ih (i + 1) hmem2 hnd.2
      rw [hidx]
      have harith : idxOfSid e.studentId (fs.map (fun f => f.studentId)) + 1 + i
          = idxOfSid e.studentId (fs.map (fun f => f.studentId)) + (i + 1) := by omega
      constructor
      · rw [harith]
        exact List.mem_cons_of_mem _ ihm
      · intro r' hr' hsid
        rcases List.mem_cons.mp hr' with h | h
        · exfalso
          apply hf
          rw [← hsid, h]
          rfl
        · rw [harith]
          exact ihu r' h hsid

theorem entriesMapSid (tq : ℚ) (stats : ℕ → StatsRow) (enrolled : List ℕ) :
    (enrolled.map (mkEntry tq stats)).map (fun e => e.studentId) = enrolled := by
  induction enrolled with
  | nil => rfl
  | cons s rest ih =>
    simp only [List.map_cons]
    rw [ih]
    rfl

/-- C8: after `recalculate_class`, every enrolled student's stored composite
equals round(0.60×avg_score + 0.25×completion_ratio + 0.15×efficiency, 2)
and rank_position is the 1-based position in the descending-by-composite
order; the order is sorted descending and stable (ties keep pre-sort
iteration order, expressed by filter-invariance per composite value). -/
theorem claimC8 (classId : ℕ) (enrolled : List ℕ) (totalQuizzesCnt : ℕ)
    (stats : ℕ → StatsRow) (board : List LbRow) (hnd : enrolled.Nodup)
    (sid : ℕ) (hsid : sid ∈ enrolled) :
    (∃ row : LbRow,
      lookupBoard (recalculateClass classId enrolled totalQuizzesCnt stats board) sid classId
        = some row ∧
      row.compositeScore = round2
        (0.60 * (if (stats sid).avgScore ≠ 0 then round1 (stats sid).avgScore else 0)
          + 0.25 * min 100 (((stats sid).quizzesDone : ℚ)
              / (if totalQuizzesCnt = 0 then 1 else (totalQuizzesCnt : ℚ)) * 100)
          + 0.15 * (if (stats sid).totalQuestions > 0
              then (stats sid).totalCorrect / (stats sid).totalQuestions * 100 else 0)) ∧
      row.rankPosition = idxOfSid sid
        ((sortDescLb (enrolled.map (mkEntry
            (if totalQuizzesCnt = 0 then 1 else (totalQuizzesCnt : ℚ)) stats))).map
          (fun f => f.studentId)) + 1) ∧
    (sortDescLb (enrolled.map (mkEntry
        (if totalQuizzesCnt = 0 then 1 else (totalQuizzesCnt : ℚ)) stats))).Pairwise
      (fun x y => y.composite ≤ x.composite) ∧
    (∀ c : ℚ,
      (sortDescLb (enrolled.map (mkEntry
          (if totalQuizzesCnt = 0 then 1 else (totalQuizzesCnt : ℚ)) stats))).filter
          (fun e => e.composite = c)
        = (enrolled.map (mkEntry
            (if totalQuizzesCnt = 0 then 1 else (totalQuizzesCnt : ℚ)) stats)).filter
          (fun e => e.composite = c)) := by
  refine ⟨?_, sortDescLb_sorted _, fun c => filter_sortDescLb _ c⟩
  set tq : ℚ := if totalQuizzesCnt = 0 then 1 else (totalQuizzesCnt : ℚ) with htq
  set entries := enrolled.map (mkEntry tq stats) with hentries
  have hne : enrolled ≠ [] := List.ne_nil_of_mem hsid
  have hmapsid : entries.map (fun f => f.studentId) = enrolled := by
    rw [hentries]
    exact entriesMapSid tq stats enrolled
  have hsortedNodup : ((sortDescLb entries).map (fun f => f.studentId)).Nodup := by
    have hperm := (sortDescLb_perm entries).map (fun f => f.studentId)
    rw [hmapsid] at hperm
    exact hperm.nodup_iff.mpr hnd
  have heMem : mkEntry tq stats sid ∈ entries := by
    rw [hentries]
    exact List.mem_map_of_mem _ hsid
  have heMemSorted : mkEntry tq stats sid ∈ sortDescLb entries :=
    (sortDescLb_perm entries).mem_iff.mpr heMem
  obtain ⟨hrowmem, hrowuniq⟩ :=
    rankRows_spec classId (mkEntry tq stats sid) (sortDescLb entries) 1 heMemSorted hsortedNodup
  refine ⟨mkRowOf classId (mkEntry tq stats sid)
      (idxOfSid (mkEntry tq stats sid).studentId
        ((sortDescLb entries).map (fun f => f.studentId)) + 1), ?_, rfl, rfl⟩
  unfold recalculateClass
  rw [if_neg hne]
  dsimp only
  rw [← htq, ← hentries]
  exact lookupBoard_foldl_mem _ board sid classId _ ⟨rfl, rfl⟩ hrowmem
    (fun r' hr' hk => hrowuniq r' hr' hk.1)

/-- Witness for C8: a 3-student class whose composites are 70.0, 85.5 and
60.2; the stored order is [85.5, 70.0, 60.2] with rank positions [1,2,3]. -/
theorem claimC8_witness :
    (∃ row : LbRow,
      lookupBoard (recalculateClass 1 [101, 102, 103] 1
          (fun sid => if sid = 101 then ⟨1, 0, 0, 75⟩
            else if sid = 102 then ⟨1, 1, 30, 100⟩ else ⟨1, 26, 75, 50⟩) []) 102 1
        = some row ∧ row.compositeScore = 85.5 ∧ row.rankPosition = 1) ∧
    (∃ row : LbRow,
      lookupBoard (recalculateClass 1 [101, 102, 103] 1
          (fun sid => if sid = 101 then ⟨1, 0, 0, 75⟩
            else if sid = 102 then ⟨1, 1, 30, 100⟩ else ⟨1, 26, 75, 50⟩) []) 101 1
        = some row ∧ row.compositeScore = 70 ∧ row.rankPosition = 2) ∧
    (∃ row : LbRow,
      lookupBoard (recalculateClass 1 [101, 102, 103] 1
          (fun sid => if sid = 101 then ⟨1, 0, 0, 75⟩
            else if sid = 102 then ⟨1, 1, 30, 100⟩ else ⟨1, 26, 75, 50⟩) []) 103 1
        = some row ∧ row.compositeScore = 60.2 ∧ row.rankPosition = 3) := by
  refine ⟨?_, ?_, ?_⟩
  · obtain ⟨⟨row, hl, hc, hr⟩, -, -⟩ := claimC8 1 [101, 102, 103] 1
      (fun sid => if sid = 101 then ⟨1, 0, 0, 75⟩
        else if sid = 102 then ⟨1, 1, 30, 100⟩ else ⟨1, 26, 75, 50⟩) []
      (by decide) 102 (by decide)
    refine ⟨row, hl, ?_, ?_⟩
    · rw [hc]
      norm_num [round1, round2, pyRound]
    · rw [hr]
      norm_num [mkEntry, sortDescLb, insertDescLb, idxOfSid, round1, round2, pyRound]
  · obtain ⟨⟨row, hl, hc, hr⟩, -, -⟩ := claimC8 1 [101, 102, 103] 1
      (fun sid => if sid = 101 then ⟨1, 0, 0, 75⟩
        else if sid = 102 then ⟨1, 1, 30, 100⟩ else ⟨1, 26, 75, 50⟩) []
      (by decide) 101 (by decide)
    refine ⟨row, hl, ?_, ?_⟩
    · rw [hc]
      norm_num [round1, round2, pyRound]
    · rw [hr]
      norm_num [mkEntry, sortDescLb, insertDescLb, idxOfSid, round1, round2, pyRound]
  · obtain ⟨⟨row, hl, hc, hr⟩, -, -⟩ := claimC8 1 [101, 102, 103] 1
      (fun sid => if sid = 101 then ⟨1, 0, 0, 75⟩
        else if sid = 102 then ⟨1, 1, 30, 100⟩ else ⟨1, 26, 75, 50⟩) []
      (by decide) 103 (by decide)
    refine ⟨row, hl, ?_, ?_⟩
    · rw [hc]
      norm_num [round1, round2, pyRound]
    · rw [hr]
      norm_num [mkEntry, sortDescLb, insertDescLb, idxOfSid, round1, round2, pyRound]

/-- C10: replaying `submit_attempt` for an attempt whose status is already
`completed` mutates nothing and returns the success redirect to the result
page. -/
theorem claimC10 (rand : List Question → List Question) (sqrtQ : ℚ → ℚ) (now : ℚ)
    (uid : ℕ) (req : SubmitRequest) (s : ArenaState) (sid : ℕ)
    (hsid : req.sessionId = some sid) (h0 : sid ≠ 0) (hans : req.answers ≠ [])
    (hall : ∀ a ∈ s.attempts, a.id = sid → a.studentId = uid → a.status = "completed")
    (hex : ∃ a ∈ s.attempts, a.id = sid ∧ a.studentId = uid) :
    submitAttempt rand sqrtQ now uid req s = (s, SubmitResponse.success sid, []) := by
  have hong : s.attempts.find? (fun a =>
      a.id = sid ∧ a.studentId = uid ∧ a.status = "ongoing") = none := by
    rw [List.find?_eq_none]
    intro a ha
    simp only [decide_eq_true_eq, not_and]
    intro h1 h2 h3
    have hc := hall a ha h1 h2
    rw [hc] at h3
    exact absurd h3 (by decide)
  have hcomp : (s.attempts.find? (fun a =>
      a.id = sid ∧ a.studentId = uid ∧ a.status = "completed")).isSome := by
    rw [List.find?_isSome]
    obtain ⟨a, ha, h1, h2⟩ := hex
    exact ⟨a, ha, by simp [h1, h2, hall a ha h1 h2]⟩
  obtain ⟨a0, ha0⟩ := Option.isSome_iff_exists.mp hcomp
  obtain ⟨osid, answers⟩ := req
  simp only at hsid
  subst hsid
  simp only at hans
  unfold submitAttempt
  dsimp only
  rw [if_neg (by simp [h0, hans]), hong, ha0]

/-- Witness for C10: replaying a completed attempt at a concrete store. -/
theorem claimC10_witness :
    submitAttempt (fun l => l) (fun _ => 0) 0 7 ⟨some 5, [⟨some 1, some "A"⟩]⟩
      ⟨[], [⟨5, 7, "JEE", "Physics", "mock", "completed", 0, 10, none, none, none, none, 0, 0, 0⟩],
        [], [], [], [], [], [], []⟩
      = (⟨[], [⟨5, 7, "JEE", "Physics", "mock", "completed", 0, 10, none, none, none, none, 0, 0, 0⟩],
          [], [], [], [], [], [], []⟩, SubmitResponse.success 5, []) :=
  claimC10 (fun l => l) (fun _ => 0) 0 7 _ _ 5 rfl (by decide) (by simp)
    (by decide) (by decide)

theorem awardXp_frame (s : ArenaState) (uid : ℕ) (amount : ℚ) (source logText : String) :
    ∃ log rk, awardXp s uid amount source logText
      = { s with xpLog := log, rankStatus := rk } := by
  unfold awardXp
  dsimp only
  split_ifs
  · exact ⟨_, _, rfl⟩
  · exact ⟨s.xpLog ++ [⟨uid, amount, source, logText⟩], s.rankStatus, rfl⟩

theorem awardXp_quiz_rankStatus (s : ArenaState) (uid : ℕ) (amount : ℚ) (logText : String) :
    (awardXp s uid amount "quiz" logText).rankStatus = s.rankStatus := by
  unfold awardXp
  rw [if_neg (by decide)]

theorem foldl_mastery_frame {α : Type} (f : ArenaState → α → ArenaState)
    (hf : ∀ st a, ∃ tm, f st a = { st with topicMastery := tm }) :
    ∀ (l : List α) (s : ArenaState), ∃ tm, l.foldl f s = { s with topicMastery := tm } := by
  intro l
  induction l with
  | nil => intro s; exact ⟨s.topicMastery, rfl⟩
  | cons a l ih =>
    intro s
    rw [List.foldl_cons]
    obtain ⟨tm0, h0⟩ := hf s a
    rw [h0]
    obtain ⟨tm, htm⟩ := ih { s with topicMastery := tm0 }
    rw [htm]
    exact ⟨tm, rfl⟩

theorem updateTopicMastery_frame (s : ArenaState) (uid : ℕ) (exam subject : String)
    (wrong correct : List Question) :
    ∃ tm, updateTopicMastery s uid exam subject wrong correct
      = { s with topicMastery := tm } := by
  unfold updateTopicMastery
  apply foldl_mastery_frame
  intro st p
  dsimp only
  split_ifs <;> exact ⟨_, rfl⟩

theorem generateAiNotes_frame (s : ArenaState) (uid attemptId : ℕ) (wrong : List Question) :
    ∃ notes, generateAiNotes s uid attemptId wrong = { s with aiNotes := notes } := by
  unfold generateAiNotes
  suffices h : ∀ (w : List Question) (seen : List String) (st : ArenaState),
      ∃ notes, (w.foldl (fun acc q =>
        if q.topicTag ∈ acc.1 then acc
        else
          (q.topicTag :: acc.1,
            { acc.2 with aiNotes := acc.2.aiNotes ++
              [⟨uid, attemptId, q.topicTag,
                "Missed a question on " ++ q.topicTag ++ ": " ++ q.questionText.take 100 ++ "...",
                "The correct answer was \x27" ++ q.correctOption ++ "\x27. " ++ q.explanation,
                generateMemoryTrick q.topicTag q.explanation⟩] })) (seen, st)).2
        = { st with aiNotes := notes } by
    exact h wrong [] s
  intro w
  induction w with
  | nil => intro seen st; exact ⟨st.aiNotes, rfl⟩
  | cons q l ih =>
    intro seen st
    rw [List.foldl_cons]
    dsimp only
    split_ifs
    · exact ih seen st
    · obtain ⟨notes, hn⟩ := ih (q.topicTag :: seen)
        { st with aiNotes := st.aiNotes ++
          [⟨uid, attemptId, q.topicTag,
            "Missed a question on " ++ q.topicTag ++ ": " ++ q.questionText.take 100 ++ "...",
            "The correct answer was \x27" ++ q.correctOption ++ "\x27. " ++ q.explanation,
            generateMemoryTrick q.topicTag q.explanation⟩] }
      exact ⟨notes, hn⟩

theorem generateRevisionPlan_empty (rand : List Question → List Question) (sqrtQ : ℚ → ℚ)
    (s : ArenaState) (uid attemptId : ℕ) (exam subject : String)
    (h : wrongJoined s attemptId = []) :
    generateRevisionPlan rand sqrtQ s uid attemptId exam subject = s := by
  unfold generateRevisionPlan
  rw [if_pos h]

theorem generateRevisionPlan_inserts (rand : List Question → List Question) (sqrtQ : ℚ → ℚ)
    (s : ArenaState) (uid attemptId : ℕ) (exam subject : String)
    (h : wrongJoined s attemptId ≠ []) :
    ∃ row : RevisionPlan, row.studentId = uid ∧ row.attemptId = attemptId ∧
      generateRevisionPlan rand sqrtQ s uid attemptId exam subject
        = { s with revisionPlans := s.revisionPlans ++ [row] } := by
  unfold generateRevisionPlan
  rw [if_neg h]
  exact ⟨_, rfl, rfl, rfl⟩

theorem unlockAchievement_frame (s : ArenaState) (uid : ℕ) (owned : List String) (code : String) :
    ∃ ach log rk, (unlockAchievement s uid owned code).1
      = { s with achievements := ach, xpLog := log, rankStatus := rk } := by
  unfold unlockAchievement
  dsimp only
  split_ifs
  · exact ⟨s.achievements, s.xpLog, s.rankStatus, rfl⟩
  · obtain ⟨log, rk, hx⟩ := awardXp_frame
      { s with achievements := s.achievements ++
        [⟨uid, code, (achievementMeta code).1, (achievementMeta code).2.1, (achievementMeta code).2.2⟩] }
      uid 100 "achievement" ("Unlocked: " ++ (achievementMeta code).1)
    exact ⟨_, log, rk, hx⟩

theorem foldl_achievements_frame (f : ArenaState × List String → Bool × String → ArenaState × List String)
    (hf : ∀ acc c, ∃ ach log rk, (f acc c).1
      = { acc.1 with achievements := ach, xpLog := log, rankStatus := rk }) :
    ∀ (l : List (Bool × String)) (acc : ArenaState × List String),
      ∃ ach log rk, (l.foldl f acc).1
        = { acc.1 with achievements := ach, xpLog := log, rankStatus := rk } := by
  intro l
  induction l with
  | nil => intro acc; exact ⟨acc.1.achievements, acc.1.xpLog, acc.1.rankStatus, rfl⟩
  | cons c l ih =>
    intro acc
    rw [List.foldl_cons]
    obtain ⟨a0, l0, r0, h0⟩ := hf acc c
    obtain ⟨a1, l1, r1, h1⟩ := ih (f acc c)
    rw [h1, h0]
    exact ⟨a1, l1, r1, rfl⟩

theorem checkAchievements_frame (s : ArenaState) (uid : ℕ) (ad : Option AttemptData) :
    ∃ ach log rk, checkAchievements s uid ad
      = { s with achievements := ach, xpLog := log, rankStatus := rk } := by
  unfold checkAchievements
  dsimp only
  apply foldl_achievements_frame
  intro acc c
  by_cases hcond : c.1 = true
  · rw [if_pos hcond]
    exact unlockAchievement_frame acc.1 uid acc.2 c.2
  · rw [if_neg hcond]
    exact ⟨acc.1.achievements, acc.1.xpLog, acc.1.rankStatus, rfl⟩

theorem bumpFn_studentId (uid : ℕ) (xp : ℚ) (r : RankRow) :
    (bumpFn uid xp r).studentId = r.studentId := by
  unfold bumpFn
  split_ifs <;> rfl

theorem find?_map_studentId (rows : List RankRow) (f : RankRow → RankRow)
    (hf : ∀ r, (f r).studentId = r.studentId) (uid : ℕ) :
    (rows.map f).find? (fun r => r.studentId = uid)
      = (rows.find? (fun r => r.studentId = uid)).map f := by
  induction rows with
  | nil => rfl
  | cons r rows ih =>
    rw [List.map_cons]
    by_cases hr : r.studentId = uid
    · rw [List.find?_cons_of_pos _ (by simp [hf, hr]),
        List.find?_cons_of_pos _ (by simp [hr])]
      rfl
    · rw [List.find?_cons_of_neg _ (by simp [hf, hr]),
        List.find?_cons_of_neg _ (by simp [hr]), ih]

theorem exists_find?_rank (rows : List RankRow) (uid : ℕ)
    (h : ∃ r ∈ rows, r.studentId = uid) :
    ∃ r0, rows.find? (fun r => r.studentId = uid) = some r0 := by
  apply Option.isSome_iff_exists.mp
  rw [List.find?_isSome]
  obtain ⟨r, hr, hru⟩ := h
  exact ⟨r, hr, by simp [hru]⟩

/-- C3 (amended): within `submit_attempt`, the rank recomputation (when the
student has a rank row) precedes the topic-mastery update, the mastery
update precedes the readiness computation, and no leaderboard recalculation
occurs in the handler at all — the spec's ordering mastery → readiness →
rank → leaderboard does not match the code. -/
theorem claimC3 (rand : List Question → List Question) (sqrtQ : ℚ → ℚ) (now : ℚ)
    (uid : ℕ) (req : SubmitRequest) (s : ArenaState) (sid : ℕ) (attempt : Attempt)
    (hsid : req.sessionId = some sid) (h0 : sid ≠ 0) (hans : req.answers ≠ [])
    (hfind : s.attempts.find? (fun a => a.id = sid ∧ a.studentId = uid ∧ a.status = "ongoing")
      = some attempt)
    (hrank : ∃ r ∈ s.rankStatus, r.studentId = uid) :
    idxOfEvent ArenaEvent.rankNameUpdate (submitAttempt rand sqrtQ now uid req s).2.2
        < idxOfEvent ArenaEvent.masteryUpdate (submitAttempt rand sqrtQ now uid req s).2.2 ∧
    idxOfEvent ArenaEvent.masteryUpdate (submitAttempt rand sqrtQ now uid req s).2.2
        < idxOfEvent ArenaEvent.readinessUpdate (submitAttempt rand sqrtQ now uid req s).2.2 ∧
    ArenaEvent.leaderboardRecalc ∉ (submitAttempt rand sqrtQ now uid req s).2.2 := by
  obtain ⟨osid, answers⟩ := req
  simp only at hsid hans
  subst hsid
  unfold submitAttempt
  dsimp only
  rw [if_neg (by simp [h0, hans]), hfind]
  dsimp only
  rw [awardXp_quiz_rankStatus]
  dsimp only
  rw [find?_map_studentId _ _ (bumpFn_studentId uid _) uid]
  obtain ⟨r0, hr0⟩ := exists_find?_rank s.rankStatus uid hrank
  rw [hr0]
  split_ifs <;> simp [idxOfEvent]

set_option maxHeartbeats 2000000 in
/-- Witness for C3's amended ordering at a concrete submission. -/
theorem claimC3_witness :
    idxOfEvent ArenaEvent.rankNameUpdate
        (submitAttempt (fun l => l) (fun _ => 0) 600 7 ⟨some 5, [⟨some 1, some "A"⟩]⟩
          ⟨[⟨1, "JEE", "Physics", "Mechanics", "Easy", "Q", "a", "b", "c", "d", "A", "expl", 60⟩],
            [⟨5, 7, "JEE", "Physics", "daily", "ongoing", 0, 10, none, none, some "Medium", none, 0, 0, 0⟩],
            [], [⟨7, "Bronze", 0, 0, 0⟩], [], [], [], [], []⟩).2.2
      < idxOfEvent ArenaEvent.masteryUpdate
        (submitAttempt (fun l => l) (fun _ => 0) 600 7 ⟨some 5, [⟨some 1, some "A"⟩]⟩
          ⟨[⟨1, "JEE", "Physics", "Mechanics", "Easy", "Q", "a", "b", "c", "d", "A", "expl", 60⟩],
            [⟨5, 7, "JEE", "Physics", "daily", "ongoing", 0, 10, none, none, some "Medium", none, 0, 0, 0⟩],
            [], [⟨7, "Bronze", 0, 0, 0⟩], [], [], [], [], []⟩).2.2 ∧
    ArenaEvent.leaderboardRecalc ∉
        (submitAttempt (fun l => l) (fun _ => 0) 600 7 ⟨some 5, [⟨some 1, some "A"⟩]⟩
          ⟨[⟨1, "JEE", "Physics", "Mechanics", "Easy", "Q", "a", "b", "c", "d", "A", "expl", 60⟩],
            [⟨5, 7, "JEE", "Physics", "daily", "ongoing", 0, 10, none, none, some "Medium", none, 0, 0, 0⟩],
            [], [⟨7, "Bronze", 0, 0, 0⟩], [], [], [], [], []⟩).2.2 :=
  ⟨(claimC3 (fun l => l) (fun _ => 0) 600 7 ⟨some 5, [⟨some 1, some "A"⟩]⟩
      ⟨[⟨1, "JEE", "Physics", "Mechanics", "Easy", "Q", "a", "b", "c", "d", "A", "expl", 60⟩],
        [⟨5, 7, "JEE", "Physics", "daily", "ongoing", 0, 10, none, none, some "Medium", none, 0, 0, 0⟩],
        [], [⟨7, "Bronze", 0, 0, 0⟩], [], [], [], [], []⟩ 5
      ⟨5, 7, "JEE", "Physics", "daily", "ongoing", 0, 10, none, none, some "Medium", none, 0, 0, 0⟩
      rfl (by decide) (by simp) (by decide) (by decide)).1,
   (claimC3 (fun l => l) (fun _ => 0) 600 7 ⟨some 5, [⟨some 1, some "A"⟩]⟩
      ⟨[⟨1, "JEE", "Physics", "Mechanics", "Easy", "Q", "a", "b", "c", "d", "A", "expl", 60⟩],
        [⟨5, 7, "JEE", "Physics", "daily", "ongoing", 0, 10, none, none, some "Medium", none, 0, 0, 0⟩],
        [], [⟨7, "Bronze", 0, 0, 0⟩], [], [], [], [], []⟩ 5
      ⟨5, 7, "JEE", "Physics", "daily", "ongoing", 0, 10, none, none, some "Medium", none, 0, 0, 0⟩
      rfl (by decide) (by simp) (by decide) (by decide)).2.2⟩

set_option maxHeartbeats 2000000 in
/-- Counterexample for C3 as stated by the spec: at a concrete submission
the handler's trace violates the claimed ordering mastery → readiness →
rank → leaderboard (the rank update comes first and no leaderboard
recalculation happens). -/
theorem claimC3_counterexample :
    ¬(idxOfEvent ArenaEvent.masteryUpdate
        (submitAttempt (fun l => l) (fun _ => 0) 600 7 ⟨some 5, [⟨some 1, some "A"⟩]⟩
          ⟨[⟨1, "JEE", "Physics", "Mechanics", "Easy", "Q", "a", "b", "c", "d", "A", "expl", 60⟩],
            [⟨5, 7, "JEE", "Physics", "daily", "ongoing", 0, 10, none, none, some "Medium", none, 0, 0, 0⟩],
            [], [⟨7, "Bronze", 0, 0, 0⟩], [], [], [], [], []⟩).2.2
      < idxOfEvent ArenaEvent.readinessUpdate
        (submitAttempt (fun l => l) (fun _ => 0) 600 7 ⟨some 5, [⟨some 1, some "A"⟩]⟩
          ⟨[⟨1, "JEE", "Physics", "Mechanics", "Easy", "Q", "a", "b", "c", "d", "A", "expl", 60⟩],
            [⟨5, 7, "JEE", "Physics", "daily", "ongoing", 0, 10, none, none, some "Medium", none, 0, 0, 0⟩],
            [], [⟨7, "Bronze", 0, 0, 0⟩], [], [], [], [], []⟩).2.2 ∧
      idxOfEvent ArenaEvent.readinessUpdate
        (submitAttempt (fun l => l) (fun _ => 0) 600 7 ⟨some 5, [⟨some 1, some "A"⟩]⟩
          ⟨[⟨1, "JEE", "Physics", "Mechanics", "Easy", "Q", "a", "b", "c", "d", "A", "expl", 60⟩],
            [⟨5, 7, "JEE", "Physics", "daily", "ongoing", 0, 10, none, none, some "Medium", none, 0, 0, 0⟩],
            [], [⟨7, "Bronze", 0, 0, 0⟩], [], [], [], [], []⟩).2.2
      < idxOfEvent ArenaEvent.rankNameUpdate
        (submitAttempt (fun l => l) (fun _ => 0) 600 7 ⟨some 5, [⟨some 1, some "A"⟩]⟩
          ⟨[⟨1, "JEE", "Physics", "Mechanics", "Easy", "Q", "a", "b", "c", "d", "A", "expl", 60⟩],
            [⟨5, 7, "JEE", "Physics", "daily", "ongoing", 0, 10, none, none, some "Medium", none, 0, 0, 0⟩],
            [], [⟨7, "Bronze", 0, 0, 0⟩], [], [], [], [], []⟩).2.2 ∧
      idxOfEvent ArenaEvent.rankNameUpdate
        (submitAttempt (fun l => l) (fun _ => 0) 600 7 ⟨some 5, [⟨some 1, some "A"⟩]⟩
          ⟨[⟨1, "JEE", "Physics", "Mechanics", "Easy", "Q", "a", "b", "c", "d", "A", "expl", 60⟩],
            [⟨5, 7, "JEE", "Physics", "daily", "ongoing", 0, 10, none, none, some "Medium", none, 0, 0, 0⟩],
            [], [⟨7, "Bronze", 0, 0, 0⟩], [], [], [], [], []⟩).2.2
      < idxOfEvent ArenaEvent.leaderboardRecalc
        (submitAttempt (fun l => l) (fun _ => 0) 600 7 ⟨some 5, [⟨some 1, some "A"⟩]⟩
          ⟨[⟨1, "JEE", "Physics", "Mechanics", "Easy", "Q", "a", "b", "c", "d", "A", "expl", 60⟩],
            [⟨5, 7, "JEE", "Physics", "daily", "ongoing", 0, 10, none, none, some "Medium", none, 0, 0, 0⟩],
            [], [⟨7, "Bronze", 0, 0, 0⟩], [], [], [], [], []⟩).2.2) := by
  unfold submitAttempt
  dsimp only
  rw [if_neg (by simp)]
  rw [show ([⟨5, 7, "JEE", "Physics", "daily", "ongoing", 0, 10, none, none, some "Medium", none, 0, 0, 0⟩] : List Attempt).find?
        (fun a => a.id = 5 ∧ a.studentId = 7 ∧ a.status = "ongoing")
      = some ⟨5, 7, "JEE", "Physics", "daily", "ongoing", 0, 10, none, none, some "Medium", none, 0, 0, 0⟩ from by decide]
  dsimp only
  rw [awardXp_quiz_rankStatus]
  dsimp only
  rw [find?_map_studentId _ _ (bumpFn_studentId 7 _) 7]
  rw [show ([⟨7, "Bronze", 0, 0, 0⟩] : List RankRow).find? (fun r => r.studentId = 7)
      = some ⟨7, "Bronze", 0, 0, 0⟩ from by decide]
  split_ifs <;> simp [idxOfEvent]

theorem awardXp_attemptAnswers (s : ArenaState) (uid : ℕ) (amount : ℚ) (source logText : String) :
    (awardXp s uid amount source logText).attemptAnswers = s.attemptAnswers := by
  obtain ⟨log, rk, h⟩ := awardXp_frame s uid amount source logText
  rw [h]

theorem awardXp_attempts (s : ArenaState) (uid : ℕ) (amount : ℚ) (source logText : String) :
    (awardXp s uid amount source logText).attempts = s.attempts := by
  obtain ⟨log, rk, h⟩ := awardXp_frame s uid amount source logText
  rw [h]

theorem awardXp_revisionPlans (s : ArenaState) (uid : ℕ) (amount : ℚ) (source logText : String) :
    (awardXp s uid amount source logText).revisionPlans = s.revisionPlans := by
  obtain ⟨log, rk, h⟩ := awardXp_frame s uid amount source logText
  rw [h]

theorem updateTopicMastery_attemptAnswers (s : ArenaState) (uid : ℕ) (exam subject : String)
    (wrong correct : List Question) :
    (updateTopicMastery s uid exam subject wrong correct).attemptAnswers = s.attemptAnswers := by
  obtain ⟨tm, h⟩ := updateTopicMastery_frame s uid exam subject wrong correct
  rw [h]

theorem updateTopicMastery_attempts (s : ArenaState) (uid : ℕ) (exam subject : String)
    (wrong correct : List Question) :
    (updateTopicMastery s uid exam subject wrong correct).attempts = s.attempts := by
  obtain ⟨tm, h⟩ := updateTopicMastery_frame s uid exam subject wrong correct
  rw [h]

theorem updateTopicMastery_revisionPlans (s : ArenaState) (uid : ℕ) (exam subject : String)
    (wrong correct : List Question) :
    (updateTopicMastery s uid exam subject wrong correct).revisionPlans = s.revisionPlans := by
  obtain ⟨tm, h⟩ := updateTopicMastery_frame s uid exam subject wrong correct
  rw [h]

theorem generateAiNotes_attemptAnswers (s : ArenaState) (uid attemptId : ℕ) (wrong : List Question) :
    (generateAiNotes s uid attemptId wrong).attemptAnswers = s.attemptAnswers := by
  obtain ⟨notes, h⟩ := generateAiNotes_frame s uid attemptId wrong
  rw [h]

theorem generateAiNotes_attempts (s : ArenaState) (uid attemptId : ℕ) (wrong : List Question) :
    (generateAiNotes s uid attemptId wrong).attempts = s.attempts := by
  obtain ⟨notes, h⟩ := generateAiNotes_frame s uid attemptId wrong
  rw [h]

theorem generateAiNotes_revisionPlans (s : ArenaState) (uid attemptId : ℕ) (wrong : List Question) :
    (generateAiNotes s uid attemptId wrong).revisionPlans = s.revisionPlans := by
  obtain ⟨notes, h⟩ := generateAiNotes_frame s uid attemptId wrong
  rw [h]

theorem generateRevisionPlan_attemptAnswers (rand : List Question → List Question) (sqrtQ : ℚ → ℚ)
    (s : ArenaState) (uid attemptId : ℕ) (exam subject : String) :
    (generateRevisionPlan rand sqrtQ s uid attemptId exam subject).attemptAnswers
      = s.attemptAnswers := by
  unfold generateRevisionPlan
  dsimp only
  split_ifs <;> rfl

theorem generateRevisionPlan_attempts (rand : List Question → List Question) (sqrtQ : ℚ → ℚ)
    (s : ArenaState) (uid attemptId : ℕ) (exam subject : String) :
    (generateRevisionPlan rand sqrtQ s uid attemptId exam subject).attempts = s.attempts := by
  unfold generateRevisionPlan
  dsimp only
  split_ifs <;> rfl

theorem checkAchievements_attemptAnswers (s : ArenaState) (uid : ℕ) (ad : Option AttemptData) :
    (checkAchievements s uid ad).attemptAnswers = s.attemptAnswers := by
  obtain ⟨a, l, r, h⟩ := checkAchievements_frame s uid ad
  rw [h]

theorem checkAchievements_attempts (s : ArenaState) (uid : ℕ) (ad : Option AttemptData) :
    (checkAchievements s uid ad).attempts = s.attempts := by
  obtain ⟨a, l, r, h⟩ := checkAchievements_frame s uid ad
  rw [h]

theorem checkAchievements_revisionPlans (s : ArenaState) (uid : ℕ) (ad : Option AttemptData) :
    (checkAchievements s uid ad).revisionPlans = s.revisionPlans := by
  obtain ⟨a, l, r, h⟩ := checkAchievements_frame s uid ad
  rw [h]

theorem scoreAnswers_unknown_mem (bank : List Question) (sid : ℕ) (answers : List AnswerInput)
    (ans : AnswerInput) (hmem : ans ∈ answers)
    (hq : bank.find? (fun q => some q.id = ans.questionId) = none) :
    (⟨sid, ans.questionId, ans.selectedOption, false,
      none, none, none, none, none, none, none⟩ : AnswerRow)
      ∈ (scoreAnswers bank sid answers).rows := by
  induction answers with
  | nil => cases hmem
  | cons a rest ih =>
    rcases List.mem_cons.mp hmem with h | h
    · subst h
      unfold scoreAnswers
      rw [hq]
      exact List.mem_cons_self _ _
    · unfold scoreAnswers
      cases hfa : bank.find? (fun q => some q.id = a.questionId) with
      | none =>
        dsimp only
        exact List.mem_cons_of_mem _ (ih h)
      | some q =>
        dsimp only
        split_ifs <;> exact List.mem_cons_of_mem _ (ih h)

/-- C4 (amended): a submission containing an unknown question id is NOT
rejected — `submit_attempt` records an `is_correct=0` answer row for it,
completes the attempt and returns the success redirect. -/
theorem claimC4 (rand : List Question → List Question) (sqrtQ : ℚ → ℚ) (now : ℚ)
    (uid : ℕ) (req : SubmitRequest) (s : ArenaState) (sid : ℕ) (attempt : Attempt)
    (ans : AnswerInput)
    (hsid : req.sessionId = some sid) (h0 : sid ≠ 0) (hans : req.answers ≠ [])
    (hfind : s.attempts.find? (fun a => a.id = sid ∧ a.studentId = uid ∧ a.status = "ongoing")
      = some attempt)
    (hmem : ans ∈ req.answers)
    (hunknown : ∀ q ∈ s.questionBank, ¬ some q.id = ans.questionId) :
    (submitAttempt rand sqrtQ now uid req s).2.1 = SubmitResponse.success sid ∧
    (⟨sid, ans.questionId, ans.selectedOption, false,
      none, none, none, none, none, none, none⟩ : AnswerRow)
      ∈ (submitAttempt rand sqrtQ now uid req s).1.attemptAnswers ∧
    ∃ a ∈ (submitAttempt rand sqrtQ now uid req s).1.attempts,
      a.id = sid ∧ a.status = "completed" := by
  obtain ⟨osid, answers⟩ := req
  simp only at hsid hans hmem
  subst hsid
  have hpred := List.find?_some hfind
  simp only [decide_eq_true_eq] at hpred
  obtain ⟨hattid, hattuid, hattst⟩ := hpred
  have hattmem := List.mem_of_find?_eq_some hfind
  have hq : s.questionBank.find? (fun q => some q.id = ans.questionId) = none := by
    rw [List.find?_eq_none]
    intro q hqm
    simpa using hunknown q hqm
  unfold submitAttempt
  dsimp only
  rw [if_neg (by simp [h0, hans]), hfind]
  dsimp only
  rw [awardXp_quiz_rankStatus]
  dsimp only
  rw [find?_map_studentId _ _ (bumpFn_studentId uid _) uid]
  cases hr0 : s.rankStatus.find? (fun r => r.studentId = uid)
  all_goals
    dsimp only [Option.map]
    refine ⟨rfl, ?_, ?_⟩
  all_goals
    first
    | (rw [checkAchievements_attemptAnswers]
       split_ifs <;>
         (simp only [generateRevisionPlan_attemptAnswers, generateAiNotes_attemptAnswers,
            updateTopicMastery_attemptAnswers, awardXp_attemptAnswers]
          exact List.mem_append_right _ (scoreAnswers_unknown_mem _ _ _ _ hmem hq)))
    | (rw [checkAchievements_attempts]
       split_ifs <;>
         (simp only [generateRevisionPlan_attempts, generateAiNotes_attempts,
            updateTopicMastery_attempts, awardXp_attempts]
          refine ⟨_, List.mem_map_of_mem _ hattmem, ?_⟩
          unfold finalizeUpd
          rw [if_pos hattid]
          exact ⟨hattid, rfl⟩))

set_option maxHeartbeats 2000000 in
/-- Witness for C4's amended behaviour at a concrete unknown-question
submission. -/
theorem claimC4_witness :
    (submitAttempt (fun l => l) (fun _ => 0) 600 7 ⟨some 5, [⟨some 2, some "A"⟩]⟩
        ⟨[⟨1, "JEE", "Physics", "Mechanics", "Easy", "Q", "a", "b", "c", "d", "A", "expl", 60⟩],
          [⟨5, 7, "JEE", "Physics", "daily", "ongoing", 0, 10, none, none, some "Medium", none, 0, 0, 0⟩],
          [], [⟨7, "Bronze", 0, 0, 0⟩], [], [], [], [], []⟩).2.1 = SubmitResponse.success 5 ∧
    (⟨5, some 2, some "A", false, none, none, none, none, none, none, none⟩ : AnswerRow)
      ∈ (submitAttempt (fun l => l) (fun _ => 0) 600 7 ⟨some 5, [⟨some 2, some "A"⟩]⟩
        ⟨[⟨1, "JEE", "Physics", "Mechanics", "Easy", "Q", "a", "b", "c", "d", "A", "expl", 60⟩],
          [⟨5, 7, "JEE", "Physics", "daily", "ongoing", 0, 10, none, none, some "Medium", none, 0, 0, 0⟩],
          [], [⟨7, "Bronze", 0, 0, 0⟩], [], [], [], [], []⟩).1.attemptAnswers :=
  ⟨(claimC4 (fun l => l) (fun _ => 0) 600 7 ⟨some 5, [⟨some 2, some "A"⟩]⟩
      ⟨[⟨1, "JEE", "Physics", "Mechanics", "Easy", "Q", "a", "b", "c", "d", "A", "expl", 60⟩],
        [⟨5, 7, "JEE", "Physics", "daily", "ongoing", 0, 10, none, none, some "Medium", none, 0, 0, 0⟩],
        [], [⟨7, "Bronze", 0, 0, 0⟩], [], [], [], [], []⟩ 5
      ⟨5, 7, "JEE", "Physics", "daily", "ongoing", 0, 10, none, none, some "Medium", none, 0, 0, 0⟩
      ⟨some 2, some "A"⟩ rfl (by decide) (by simp) (by decide) (by decide) (by decide)).1,
   (claimC4 (fun l => l) (fun _ => 0) 600 7 ⟨some 5, [⟨some 2, some "A"⟩]⟩
      ⟨[⟨1, "JEE", "Physics", "Mechanics", "Easy", "Q", "a", "b", "c", "d", "A", "expl", 60⟩],
        [⟨5, 7, "JEE", "Physics", "daily", "ongoing", 0, 10, none, none, some "Medium", none, 0, 0, 0⟩],
        [], [⟨7, "Bronze", 0, 0, 0⟩], [], [], [], [], []⟩ 5
      ⟨5, 7, "JEE", "Physics", "daily", "ongoing", 0, 10, none, none, some "Medium", none, 0, 0, 0⟩
      ⟨some 2, some "A"⟩ rfl (by decide) (by simp) (by decide) (by decide) (by decide)).2.1⟩

set_option maxHeartbeats 2000000 in
/-- Counterexample for C4 as stated by the spec: a concrete submission with
an unknown question id is not rejected — the response is the success
redirect and an answer row is committed. -/
theorem claimC4_counterexample :
    (∀ q ∈ ([⟨1, "JEE", "Physics", "Mechanics", "Easy", "Q", "a", "b", "c", "d", "A", "expl", 60⟩] : List Question),
      ¬ some q.id = some 2) ∧
    (submitAttempt (fun l => l) (fun _ => 0) 600 7 ⟨some 5, [⟨some 2, some "A"⟩]⟩
        ⟨[⟨1, "JEE", "Physics", "Mechanics", "Easy", "Q", "a", "b", "c", "d", "A", "expl", 60⟩],
          [⟨5, 7, "JEE", "Physics", "daily", "ongoing", 0, 10, none, none, some "Medium", none, 0, 0, 0⟩],
          [], [⟨7, "Bronze", 0, 0, 0⟩], [], [], [], [], []⟩).2.1 = SubmitResponse.success 5 ∧
    (submitAttempt (fun l => l) (fun _ => 0) 600 7 ⟨some 5, [⟨some 2, some "A"⟩]⟩
        ⟨[⟨1, "JEE", "Physics", "Mechanics", "Easy", "Q", "a", "b", "c", "d", "A", "expl", 60⟩],
          [⟨5, 7, "JEE", "Physics", "daily", "ongoing", 0, 10, none, none, some "Medium", none, 0, 0, 0⟩],
          [], [⟨7, "Bronze", 0, 0, 0⟩], [], [], [], [], []⟩).1.attemptAnswers ≠ [] := by
  refine ⟨by decide, ?_, ?_⟩
  · unfold submitAttempt
    dsimp only
    rw [if_neg (by simp)]
    rw [show ([⟨5, 7, "JEE", "Physics", "daily", "ongoing", 0, 10, none, none, some "Medium", none, 0, 0, 0⟩] : List Attempt).find?
          (fun a => a.id = 5 ∧ a.studentId = 7 ∧ a.status = "ongoing")
        = some ⟨5, 7, "JEE", "Physics", "daily", "ongoing", 0, 10, none, none, some "Medium", none, 0, 0, 0⟩ from by decide]
  · unfold submitAttempt
    dsimp only
    rw [if_neg (by simp)]
    rw [show ([⟨5, 7, "JEE", "Physics", "daily", "ongoing", 0, 10, none, none, some "Medium", none, 0, 0, 0⟩] : List Attempt).find?
          (fun a => a.id = 5 ∧ a.studentId = 7 ∧ a.status = "ongoing")
        = some ⟨5, 7, "JEE", "Physics", "daily", "ongoing", 0, 10, none, none, some "Medium", none, 0, 0, 0⟩ from by decide]
    dsimp only
    rw [awardXp_quiz_rankStatus]
    dsimp only
    rw [find?_map_studentId _ _ (bumpFn_studentId 7 _) 7]
    rw [show ([⟨7, "Bronze", 0, 0, 0⟩] : List RankRow).find? (fun r => r.studentId = 7)
        = some ⟨7, "Bronze", 0, 0, 0⟩ from by decide]
    dsimp only [Option.map]
    rw [checkAchievements_attemptAnswers]
    split_ifs <;>
      (simp only [generateRevisionPlan_attemptAnswers, generateAiNotes_attemptAnswers,
         updateTopicMastery_attemptAnswers, awardXp_attemptAnswers]
       exact List.ne_nil_of_mem (List.mem_append_right _
         (scoreAnswers_unknown_mem
           [⟨1, "JEE", "Physics", "Mechanics", "Easy", "Q", "a", "b", "c", "d", "A", "expl", 60⟩]
           5 [⟨some 2, some "A"⟩] ⟨some 2, some "A"⟩ (by decide) (by decide))))

theorem finalizeUpd_id_ne (sid : ℕ) (sc xp acc avg tt : ℚ) (de : String) (a : Attempt)
    (h : ¬ a.id = sid) : finalizeUpd sid sc xp acc avg tt de a = a := by
  unfold finalizeUpd
  rw [if_neg h]

theorem status_ongoing_ne_completed : ("ongoing" : String) ≠ "completed" := by decide

theorem mockCnt_after_finalize (sid uid : ℕ) (att : Attempt) (sc xp acc avg tt : ℚ) (de : String)
    (hattuid : att.studentId = uid) (hattst : att.status = "ongoing") :
    ∀ attempts : List Attempt, (∀ a ∈ attempts, a.id = sid → a = att) →
    ((attempts.map (finalizeUpd sid sc xp acc avg tt de)).filter
        (fun a => a.studentId = uid ∧ a.attemptType = "mock" ∧ a.exam = att.exam
          ∧ a.subject = att.subject ∧ a.status = "completed")).length
      = (attempts.filter (fun a => a.studentId = uid ∧ a.attemptType = "mock"
          ∧ a.exam = att.exam ∧ a.subject = att.subject ∧ a.status = "completed")).length
        + (attempts.filter (fun a => a.id = sid)).length
          * (if att.attemptType = "mock" then 1 else 0) := by
  intro attempts
  induction attempts with
  | nil => intro _; simp
  | cons a rest ih =>
    intro huniq
    have hrest : ∀ b ∈ rest, b.id = sid → b = att :=
      fun b hb => huniq b (List.mem_cons_of_mem _ hb)
    rw [List.map_cons, List.filter_cons, List.filter_cons, List.filter_cons]
    by_cases ha : a.id = sid
    · have haa : a = att := huniq a (List.mem_cons_self _ _) ha
      subst haa
      have hfu : finalizeUpd sid sc xp acc avg tt de a
          = { a with
              score := sc, status := "completed", xpEarned := xp
              accuracyPercent := some acc, avgTimePerQuestion := some avg
              timeTakenTotal := tt, difficultyEnd := some de } := by
        unfold finalizeUpd
        rw [if_pos ha]
      rw [hfu]
      by_cases hm : a.attemptType = "mock"
      · rw [if_pos (by simp [hattuid, hm])]
        rw [if_neg (by simp [hattst, status_ongoing_ne_completed])]
        rw [if_pos (by simp [ha])]
        simp only [List.length_cons]
        rw [ih hrest, if_pos hm]
        ring
      · rw [if_neg (by simp [hm])]
        rw [if_neg (by simp [hattst, status_ongoing_ne_completed])]
        rw [if_pos (by simp [ha])]
        simp only [List.length_cons]
        rw [ih hrest, if_neg hm]
        ring
    · rw [finalizeUpd_id_ne sid sc xp acc avg tt de a ha]
      by_cases hp : (a.studentId = uid ∧ a.attemptType = "mock" ∧ a.exam = att.exam
          ∧ a.subject = att.subject ∧ a.status = "completed")
      · rw [if_pos (by simpa using hp), if_pos (by simpa using hp), if_neg (by simp [ha])]
        simp only [List.length_cons]
        rw [ih hrest]
        ring
      · rw [if_neg (by simpa using hp), if_neg (by simpa using hp), if_neg (by simp [ha])]
        exact ih hrest

theorem awardXp_questionBank (s : ArenaState) (uid : ℕ) (amount : ℚ) (source logText : String) :
    (awardXp s uid amount source logText).questionBank = s.questionBank := by
  obtain ⟨log, rk, h⟩ := awardXp_frame s uid amount source logText
  rw [h]

theorem updateTopicMastery_questionBank (s : ArenaState) (uid : ℕ) (exam subject : String)
    (wrong correct : List Question) :
    (updateTopicMastery s uid exam subject wrong correct).questionBank = s.questionBank := by
  obtain ⟨tm, h⟩ := updateTopicMastery_frame s uid exam subject wrong correct
  rw [h]

theorem generateAiNotes_questionBank (s : ArenaState) (uid attemptId : ℕ) (wrong : List Question) :
    (generateAiNotes s uid attemptId wrong).questionBank = s.questionBank := by
  obtain ⟨notes, h⟩ := generateAiNotes_frame s uid attemptId wrong
  rw [h]

theorem scoreAnswers_wrong_row (bank : List Question) (sid : ℕ) :
    ∀ answers : List AnswerInput, (scoreAnswers bank sid answers).wrong ≠ [] →
    ∃ r ∈ (scoreAnswers bank sid answers).rows, r.attemptId = sid ∧ r.isCorrect = false ∧
      ∃ q, bank.find? (fun q2 => some q2.id = r.questionId) = some q := by
  intro answers
  induction answers with
  | nil => intro h; exact absurd rfl h
  | cons ans rest ih =>
    intro h
    unfold scoreAnswers at h ⊢
    cases hfa : bank.find? (fun q => some q.id = ans.questionId) with
    | none =>
      rw [hfa] at h
      dsimp only at h ⊢
      obtain ⟨r, hr, hprops⟩ := ih h
      exact ⟨r, List.mem_cons_of_mem _ hr, hprops⟩
    | some q =>
      rw [hfa] at h
      dsimp only at h ⊢
      by_cases hc : some q.correctOption = ans.selectedOption
      · rw [if_pos hc] at h ⊢
        dsimp only at h ⊢
        obtain ⟨r, hr, hprops⟩ := ih h
        exact ⟨r, List.mem_cons_of_mem _ hr, hprops⟩
      · rw [if_neg hc]
        refine ⟨⟨sid, ans.questionId, ans.selectedOption, false, some q.questionText,
          some q.optionA, some q.optionB, some q.optionC, some q.optionD,
          some q.correctOption, some q.explanation⟩, List.mem_cons_self _ _, rfl, rfl, q, hfa⟩

theorem wrongJoined_ne_nil (st : ArenaState) (s : ArenaState) (sid : ℕ)
    (answers : List AnswerInput)
    (hA : st.attemptAnswers = s.attemptAnswers ++ (scoreAnswers s.questionBank sid answers).rows)
    (hB : st.questionBank = s.questionBank)
    (hw : (scoreAnswers s.questionBank sid answers).wrong ≠ []) :
    wrongJoined st sid ≠ [] := by
  obtain ⟨r, hrmem, hrid, hrcor, q, hq⟩ := scoreAnswers_wrong_row s.questionBank sid answers hw
  unfold wrongJoined
  rw [hA, hB]
  have hmem : ((r, q) : AnswerRow × Question) ∈
      ((s.attemptAnswers ++ (scoreAnswers s.questionBank sid answers).rows).filter
        (fun r2 => r2.attemptId = sid ∧ r2.isCorrect = false)).filterMap
        (fun r2 => (s.questionBank.find? (fun q2 => some q2.id = r2.questionId)).map
          (fun q2 => (r2, q2))) := by
    apply List.mem_filterMap.mpr
    refine ⟨r, List.mem_filter.mpr ⟨List.mem_append_right _ hrmem, by simp [hrid, hrcor]⟩, ?_⟩
    rw [hq]
    rfl
  exact List.ne_nil_of_mem hmem

theorem genPlan_revisionPlans_ne (rand : List Question → List Question) (sqrtQ : ℚ → ℚ)
    (st : ArenaState) (uid attemptId : ℕ) (exam subject : String) (rp0 : List RevisionPlan)
    (hwj : wrongJoined st attemptId ≠ []) (hrp : st.revisionPlans = rp0) :
    (generateRevisionPlan rand sqrtQ st uid attemptId exam subject).revisionPlans ≠ rp0 := by
  obtain ⟨row, hru, hra, hins⟩ :=
    generateRevisionPlan_inserts rand sqrtQ st uid attemptId exam subject hwj
  rw [hins]
  dsimp only
  rw [hrp]
  intro h
  have hlen := congrArg List.length h
  simp only [List.length_append, List.length_cons, List.length_nil] at hlen
  omega

set_option maxHeartbeats 2000000 in
/-- C2: under a well-formed store (unique attempt row for the session id),
a revision plan is generated by `submit_attempt` if and only if the number
of completed mock attempts for the student, exam and subject — including
the attempt just completed — is at least 3, or this attempt accuracy is
below 40 percent, and in either case the attempt has at least one wrong
answer among questions found in the bank; with zero wrong answers no plan
is ever generated. -/
theorem claimC2 (rand : List Question → List Question) (sqrtQ : ℚ → ℚ) (now : ℚ)
    (uid : ℕ) (req : SubmitRequest) (s : ArenaState) (sid : ℕ) (attempt : Attempt)
    (hsid : req.sessionId = some sid) (h0 : sid ≠ 0) (hans : req.answers ≠ [])
    (hfind : s.attempts.find? (fun a => a.id = sid ∧ a.studentId = uid ∧ a.status = "ongoing")
      = some attempt)
    (huniq : ∀ a ∈ s.attempts, a.id = sid → a = attempt)
    (honce : (s.attempts.filter (fun a => a.id = sid)).length = 1) :
    (submitAttempt rand sqrtQ now uid req s).1.revisionPlans ≠ s.revisionPlans
      ↔ ((s.attempts.filter (fun a => a.studentId = uid ∧ a.attemptType = "mock"
              ∧ a.exam = attempt.exam ∧ a.subject = attempt.subject
              ∧ a.status = "completed")).length
            + (if attempt.attemptType = "mock" then 1 else 0) ≥ 3
          ∨ ((scoreAnswers s.questionBank sid req.answers).score : ℚ)
              / (req.answers.length : ℚ) * 100 < 40)
        ∧ (scoreAnswers s.questionBank sid req.answers).wrong ≠ [] := by
  obtain ⟨osid, answers⟩ := req
  simp only at hsid hans
  subst hsid
  have hpred := List.find?_some hfind
  simp only [decide_eq_true_eq] at hpred
  obtain ⟨hattid, hattuid, hattst⟩ := hpred
  have htot : answers.length ≠ 0 := by simpa using hans
  unfold submitAttempt
  dsimp only
  rw [if_neg (by simp [h0, hans]), hfind]
  dsimp only
  rw [awardXp_quiz_rankStatus]
  dsimp only
  rw [find?_map_studentId _ _ (bumpFn_studentId uid _) uid]
  cases hr0 : s.rankStatus.find? (fun r => r.studentId = uid)
  all_goals
    dsimp only [Option.map]
    rw [checkAchievements_revisionPlans, if_pos htot]
    by_cases hw : (scoreAnswers s.questionBank sid answers).wrong = []
    · rw [if_neg (fun hc => hc.2 hw), if_neg (not_not_intro hw)]
      simp only [updateTopicMastery_revisionPlans, awardXp_revisionPlans]
      simp [hw]
    · rw [if_pos hw]
      simp only [generateAiNotes_attempts, updateTopicMastery_attempts, awardXp_attempts]
      rw [mockCnt_after_finalize sid uid attempt _ _ _ _ _ _ hattuid hattst s.attempts huniq,
        honce, one_mul]
      constructor
      · intro h
        by_contra hC
        rw [if_neg hC] at h
        simp only [generateAiNotes_revisionPlans, updateTopicMastery_revisionPlans,
          awardXp_revisionPlans] at h
        exact h rfl
      · intro hC
        rw [if_pos hC]
        apply genPlan_revisionPlans_ne
        · refine wrongJoined_ne_nil _ s sid answers ?_ ?_ hw
          · simp only [generateAiNotes_attemptAnswers, updateTopicMastery_attemptAnswers,
              awardXp_attemptAnswers]
          · simp only [generateAiNotes_questionBank, updateTopicMastery_questionBank,
              awardXp_questionBank]
        · simp only [generateAiNotes_revisionPlans, updateTopicMastery_revisionPlans,
            awardXp_revisionPlans]

set_option maxHeartbeats 2000000 in
/-- Witness for C2 at a concrete low-accuracy submission with one wrong
answer: both sides of the equivalence are realised on an explicit store. -/
theorem claimC2_witness :
    ((submitAttempt (fun l => l) (fun _ => 0) 600 7 ⟨some 5, [⟨some 1, some "B"⟩]⟩
        ⟨[⟨1, "JEE", "Physics", "Mechanics", "Easy", "Q", "a", "b", "c", "d", "A", "expl", 60⟩],
          [⟨5, 7, "JEE", "Physics", "daily", "ongoing", 0, 10, none, none, some "Medium", none, 0, 0, 0⟩],
          [], [⟨7, "Bronze", 0, 0, 0⟩], [], [], [], [], []⟩).1.revisionPlans ≠ [])
      ↔ (([(⟨5, 7, "JEE", "Physics", "daily", "ongoing", 0, 10, none, none, some "Medium", none, 0, 0, 0⟩ : Attempt)].filter
              (fun a => a.studentId = 7 ∧ a.attemptType = "mock"
                ∧ a.exam = "JEE" ∧ a.subject = "Physics"
                ∧ a.status = "completed")).length
            + (if ("daily" : String) = "mock" then 1 else 0) ≥ 3
          ∨ ((scoreAnswers [⟨1, "JEE", "Physics", "Mechanics", "Easy", "Q", "a", "b", "c", "d", "A", "expl", 60⟩]
                5 [⟨some 1, some "B"⟩]).score : ℚ)
              / (([(⟨some 1, some "B"⟩ : AnswerInput)].length : ℕ) : ℚ) * 100 < 40)
        ∧ (scoreAnswers [⟨1, "JEE", "Physics", "Mechanics", "Easy", "Q", "a", "b", "c", "d", "A", "expl", 60⟩]
            5 [⟨some 1, some "B"⟩]).wrong ≠ [] :=
  claimC2 (fun l => l) (fun _ => 0) 600 7 ⟨some 5, [⟨some 1, some "B"⟩]⟩
    ⟨[⟨1, "JEE", "Physics", "Mechanics", "Easy", "Q", "a", "b", "c", "d", "A", "expl", 60⟩],
      [⟨5, 7, "JEE", "Physics", "daily", "ongoing", 0, 10, none, none, some "Medium", none, 0, 0, 0⟩],
      [], [⟨7, "Bronze", 0, 0, 0⟩], [], [], [], [], []⟩ 5
    ⟨5, 7, "JEE", "Physics", "daily", "ongoing", 0, 10, none, none, some "Medium", none, 0, 0, 0⟩
    rfl (by decide) (by simp) (by decide) (by decide) (by decide)
